import Mathlib

/-!
# Beehive crop tracker: the request handlers of `server.js`

A shallow embedding of the four API handlers of `server.js`
(`POST /api/hives`, `GET /api/hives`, `POST /api/crops`,
`GET /api/crops/nearby`) together with `isValidCoord`, over an explicit
document store.

Modelling conventions.

* A JavaScript number is a `JSNum`: `NaN`, the two infinities, or a finite
  value carried as an exact rational (every double is a rational; the
  rounding and overflow of double arithmetic are not modelled).
* The language built-ins the handlers call (`Number` coercion, `parseInt`,
  `parseFloat`, the `Date` constructor on a string) and the distance measured
  by the `2dsphere` index are fields of an environment `Env`. General theorems
  hold for every environment; `jsEnv` is a concrete one used for the worked
  examples.
* Request fields arrive from a query string or a urlencoded body and are
  modelled as a string or absent (`Option String`). The parsers also deliver
  objects and arrays; the one such case modelled is the `name` of a create-crop
  body, which the handler hands to the store as a query condition
  (`NameField`).
* The store is the pair of collections. The schema rules written in
  `server.js` (`required`, `unique`, `min`, `enum`, the `2dsphere` index,
  `timestamps`) are what `saveHive` and `saveCrop` enforce.
* Queries follow the store's documented behaviour: a listing is sorted before
  it is skipped and capped, a negative `skip` is refused, a `limit` of 0 means
  no cap, `$maxDistance` must be non-negative and is inclusive, and a `$near`
  point must be a valid GeoJSON point.
* The store returns documents that tie on a sort key in no particular order.
  The handlers are functions of a store given as lists, so that order enters
  as the order of the lists: a statement about repeated reads compares runs
  over any two orders of the same documents (`Store.SameDocs`).
* The error texts of the store are stand-ins: the model tells which operation
  fails and with which status the handler answers, not the store's wording.
* A handler returns an `Outcome`: the response, the store afterwards, and the
  list of store operations it issued. The clock reading of a request is an
  explicit argument `now`.
-/

namespace Beehive

/-! ## JavaScript numbers -/

/-- A JavaScript number: `NaN`, `-Infinity`, a finite value, `+Infinity`. -/
inductive JSNum where
  | nan
  | negInf
  | fin (q : ℚ)
  | posInf
  deriving DecidableEq

namespace JSNum

/-- The global `isNaN` on a number. -/
def isNaN : JSNum → Bool
  | nan => true
  | _ => false

/-- The comparison `a <= b`; false as soon as one side is `NaN`. -/
def le : JSNum → JSNum → Bool
  | nan, _ => false
  | _, nan => false
  | negInf, _ => true
  | _, posInf => true
  | fin a, fin b => decide (a ≤ b)
  | fin _, negInf => false
  | posInf, fin _ => false
  | posInf, negInf => false

/-- The comparison `a >= b`. -/
def ge (a b : JSNum) : Bool := le b a

/-- Unary minus. -/
def neg : JSNum → JSNum
  | nan => nan
  | negInf => posInf
  | fin q => fin (-q)
  | posInf => negInf

/-- The sum `a + b` of two numbers. -/
def add : JSNum → JSNum → JSNum
  | nan, _ => nan
  | _, nan => nan
  | negInf, posInf => nan
  | posInf, negInf => nan
  | negInf, _ => negInf
  | _, negInf => negInf
  | posInf, _ => posInf
  | _, posInf => posInf
  | fin a, fin b => fin (a + b)

/-- The difference `a - b`. -/
def sub (a b : JSNum) : JSNum := add a (neg b)

/-- An infinity of the sign of `q` times a finite `q`; `NaN` when `q = 0`. -/
def infTimes (positive : Bool) (q : ℚ) : JSNum :=
  if q = 0 then nan
  else if (0 < q) = positive then posInf
  else negInf

/-- The product `a * b`. -/
def mul : JSNum → JSNum → JSNum
  | nan, _ => nan
  | _, nan => nan
  | fin a, fin b => fin (a * b)
  | posInf, fin b => infTimes true b
  | negInf, fin b => infTimes false b
  | fin a, posInf => infTimes true a
  | fin a, negInf => infTimes false a
  | posInf, posInf => posInf
  | negInf, negInf => posInf
  | posInf, negInf => negInf
  | negInf, posInf => negInf

/-- Rounding toward zero of a finite value (`parseInt` of a number). -/
def trunc : JSNum → JSNum
  | fin q => fin (if 0 ≤ q then (⌊q⌋ : ℤ) else (⌈q⌉ : ℤ))
  | posInf => nan
  | negInf => nan
  | nan => nan

end JSNum

/-- A value read from a request, or a default written in the handler: `undefined`,
a string, or a number. -/
inductive JSVal where
  | undefined
  | str (s : String)
  | num (n : JSNum)
  deriving DecidableEq

/-- A `Date` object: its time value in milliseconds since the epoch, or `none`
for an Invalid Date. -/
abbrev JSDate := Option Int

/-- The built-ins of the language runtime and of the store that the handlers rely on. -/
structure Env where
  /-- The coercion `Number(s)` of a string, applied by `-` and `*` and by the store's Number cast. -/
  toNumber : String → JSNum
  /-- The built-in `parseInt(s)`. -/
  parseInt : String → JSNum
  /-- The built-in `parseFloat(s)`. -/
  parseFloat : String → JSNum
  /-- The constructor `new Date(s)` on a string. -/
  dateParse : String → JSDate
  /-- Distance in metres between two `[longitude, latitude]` points, as the
  `2dsphere` index measures it. -/
  dist : ℚ × ℚ → ℚ × ℚ → ℚ

/-- A request field as a value: a missing field is `undefined`. -/
def JSVal.ofParam : Option String → JSVal
  | none => .undefined
  | some s => .str s

/-- Truthiness of a value (`if (x)`, `x ? a : b`, `x || y`). -/
def JSVal.truthy : JSVal → Bool
  | .undefined => false
  | .str s => decide (s ≠ "")
  | .num (.fin q) => decide (q ≠ 0)
  | .num .nan => false
  | .num _ => true

/-- Numeric coercion of a value, as applied by the operators `-` and `*`. -/
def Env.numberOf (env : Env) : JSVal → JSNum
  | .undefined => .nan
  | .str s => env.toNumber s
  | .num n => n

/-- The call `parseInt(v)`: the argument is first converted to a string. Numbers reach
it only as the defaults `1` and `10`, whose decimal rendering parses back to
the number rounded toward zero. -/
def Env.parseIntOf (env : Env) : JSVal → JSNum
  | .undefined => .nan
  | .str s => env.parseInt s
  | .num n => n.trunc

/-- The call `parseFloat(v)`: a number renders to a string that parses back to itself. -/
def Env.parseFloatOf (env : Env) : JSVal → JSNum
  | .undefined => .nan
  | .str s => env.parseFloat s
  | .num n => n

/-- The call `new Date(v)` on a request field: `new Date(undefined)` is an Invalid Date. -/
def Env.dateOf (env : Env) : Option String → JSDate
  | none => none
  | some s => env.dateParse s

/-! ## Records and the store -/

/-- The `location` sub-document of a stored record. -/
structure GeoPoint where
  type : String
  coordinates : List JSNum
  deriving DecidableEq

/-- A stored document of `hiveSchema` (with the two `timestamps` fields). -/
structure Hive where
  hiveId : String
  datePlaced : Int
  latitude : JSNum
  longitude : JSNum
  location : GeoPoint
  numColonies : Option JSNum
  createdAt : Int
  updatedAt : Int
  deriving DecidableEq

/-- A stored document of `cropSchema` (with the two `timestamps` fields). -/
structure Crop where
  name : String
  floweringStart : Int
  floweringEnd : Int
  latitude : JSNum
  longitude : JSNum
  location : GeoPoint
  recommendedHiveDensity : JSNum
  createdAt : Int
  updatedAt : Int
  deriving DecidableEq

/-- The two collections of `beehiveDB`, in insertion order. -/
structure Store where
  hives : List Hive
  crops : List Crop
  deriving DecidableEq

/-- The store before any request. -/
def Store.empty : Store := { hives := [], crops := [] }

/-- The `location` object a handler passes to a model constructor. -/
structure RawPoint where
  type : Option String
  coordinates : List JSVal

/-- The argument of `new Hive({...})`. -/
structure RawHive where
  hiveId : Option String
  datePlaced : Option String
  latitude : Option String
  longitude : Option String
  numColonies : Option String
  location : RawPoint

/-- The `name` field of a create-crop body. The body parser is configured with
`extended: true`, so besides a string the field can arrive as an object: the
case modelled is the operator object `{ $ne: s }`, sent as `name[$ne]=s`.
Arrays and other objects are further shapes the parser can deliver; they are
not modelled. -/
inductive NameField where
  | absent
  | str (s : String)
  | ne (s : String)
  deriving DecidableEq

/-- The argument of `new Crop({...})`. -/
structure RawCrop where
  name : NameField
  floweringStart : Option String
  floweringEnd : Option String
  latitude : Option String
  longitude : Option String
  recommendedHiveDensity : Option String
  location : RawPoint

/-! ## Casting and validation by the schema -/

/-- The store's cast to `Number`: `undefined` and the empty string become null,
a string goes through `Number`, and `NaN` is a cast error. -/
def castNumber (env : Env) : JSVal → Except String (Option JSNum)
  | .undefined => .ok none
  | .str s =>
    if s = "" then .ok none
    else match env.toNumber s with
      | .nan => .error "Cast to Number failed"
      | n => .ok (some n)
  | .num .nan => .error "Cast to Number failed"
  | .num n => .ok (some n)

/-- The store's cast to `Date` of a document field: `undefined` and the empty
string become null, a string goes through the `Date` constructor, and an
Invalid Date is a cast error. The store's further reading of a numeric string
beyond the range of years as epoch milliseconds is not modelled: such a string
is a cast error here. -/
def castDate (env : Env) : Option String → Except String (Option Int)
  | none => .ok none
  | some s =>
    if s = "" then .ok none
    else match env.dateParse s with
      | none => .error "Cast to date failed"
      | some t => .ok (some t)

/-- The store's cast of a `Date` object in a query condition. -/
def castQueryDate : JSDate → Except String Int
  | none => .error "Cast to date failed"
  | some t => .ok t

/-- The `required` rule on a cast value. -/
def required {α : Type} (path : String) : Except String (Option α) → Except String α
  | .ok (some a) => .ok a
  | .ok none => .error ("Path " ++ path ++ " is required.")
  | .error e => .error (path ++ ": " ++ e)

/-- The `required` rule on a `String` path: the empty string counts as missing. -/
def requiredString (path : String) : Option String → Except String String
  | some s => if s = "" then .error ("Path " ++ path ++ " is required.") else .ok s
  | none => .error ("Path " ++ path ++ " is required.")

/-- The `required` rule on the `name` path of a crop: the empty string counts
as missing, and an object is not a string (a cast error). -/
def requiredName (path : String) : NameField → Except String String
  | .str s => if s = "" then .error ("Path " ++ path ++ " is required.") else .ok s
  | .absent => .error ("Path " ++ path ++ " is required.")
  | .ne _ => .error (path ++ ": Cast to string failed")

/-- An optional path: only a cast error is reported. -/
def optionalPath {α : Type} (path : String) : Except String (Option α) → Except String (Option α)
  | .ok a => .ok a
  | .error e => .error (path ++ ": " ++ e)

/-- The `min: 1` rule of `recommendedHiveDensity`. -/
def minOne (path : String) : Except String JSNum → Except String JSNum
  | .ok n => if JSNum.ge n (.fin 1) then .ok n else .error ("Path " ++ path ++ " is less than minimum allowed value (1).")
  | .error e => .error e

/-- The `enum: ['Point']` rule of `location.type`. -/
def enumPoint (path : String) : Option String → Except String (Option String)
  | none => .ok none
  | some t => if t = "Point" then .ok (some t) else .error (t ++ " is not a valid enum value for path " ++ path)

/-- Cast of a `[Number]` path, element by element; a null element is rejected
(the `2dsphere` index accepts numeric pairs only). -/
def castCoordinates (env : Env) : List JSVal → Except String (List JSNum)
  | [] => .ok []
  | v :: vs =>
    match castNumber env v, castCoordinates env vs with
    | .ok (some n), .ok ns => .ok (n :: ns)
    | .ok none, .ok _ => .error "location.coordinates: Point must only contain numeric elements"
    | .error e, _ => .error ("location.coordinates: " ++ e)
    | _, .error e => .error e

/-- The message of an `Except` that failed, as a list of at most one element. -/
def failure {α : Type} : Except String α → List String
  | .ok _ => []
  | .error e => [e]

/-- The text of a validation error: the failing paths, in schema order. The
error texts of the store are stand-ins of this model, here and in the store
operations below: what is modelled is which operation fails, not its wording. -/
def validationMessage (model : String) (failures : List String) : String :=
  model ++ " validation failed: " ++ ", ".intercalate failures

/-- Casting and validation of a Hive document against `hiveSchema`. -/
def validateHive (env : Env) (now : Int) (r : RawHive) : Except String Hive :=
  let hiveId := requiredString "hiveId" r.hiveId
  let datePlaced := required "datePlaced" (castDate env r.datePlaced)
  let latitude := required "latitude" (castNumber env (JSVal.ofParam r.latitude))
  let longitude := required "longitude" (castNumber env (JSVal.ofParam r.longitude))
  let type := enumPoint "location.type" r.location.type
  let coordinates := castCoordinates env r.location.coordinates
  let numColonies := optionalPath "numColonies" (castNumber env (JSVal.ofParam r.numColonies))
  match hiveId, datePlaced, latitude, longitude, type, coordinates, numColonies with
  | .ok i, .ok d, .ok la, .ok lo, .ok t, .ok cs, .ok nc =>
    .ok { hiveId := i, datePlaced := d, latitude := la, longitude := lo,
          location := { type := t.getD "", coordinates := cs },
          numColonies := nc, createdAt := now, updatedAt := now }
  | _, _, _, _, _, _, _ =>
    .error (validationMessage "Hive"
      (failure hiveId ++ failure datePlaced ++ failure latitude ++ failure longitude
        ++ failure type ++ failure coordinates ++ failure numColonies))

/-- Casting and validation of a Crop document against `cropSchema`. -/
def validateCrop (env : Env) (now : Int) (r : RawCrop) : Except String Crop :=
  let name := requiredName "name" r.name
  let floweringStart := required "floweringStart" (castDate env r.floweringStart)
  let floweringEnd := required "floweringEnd" (castDate env r.floweringEnd)
  let latitude := required "latitude" (castNumber env (JSVal.ofParam r.latitude))
  let longitude := required "longitude" (castNumber env (JSVal.ofParam r.longitude))
  let type := required "location.type" (enumPoint "location.type" r.location.type)
  let coordinates := castCoordinates env r.location.coordinates
  let density := minOne "recommendedHiveDensity"
    (required "recommendedHiveDensity" (castNumber env (JSVal.ofParam r.recommendedHiveDensity)))
  match name, floweringStart, floweringEnd, latitude, longitude, type, coordinates, density with
  | .ok n, .ok fs, .ok fe, .ok la, .ok lo, .ok t, .ok cs, .ok dn =>
    .ok { name := n, floweringStart := fs, floweringEnd := fe, latitude := la, longitude := lo,
          location := { type := t, coordinates := cs },
          recommendedHiveDensity := dn, createdAt := now, updatedAt := now }
  | _, _, _, _, _, _, _, _ =>
    .error (validationMessage "Crop"
      (failure name ++ failure floweringStart ++ failure floweringEnd ++ failure latitude
        ++ failure longitude ++ failure type ++ failure coordinates ++ failure density))

/-! ## The geospatial index -/

/-- The point of a coordinate list: a `[longitude, latitude]` pair of finite
numbers within the bounds of the sphere. -/
def pointOf : List JSNum → Option (ℚ × ℚ)
  | [.fin lng, .fin lat] =>
    if -180 ≤ lng ∧ lng ≤ 180 ∧ -90 ≤ lat ∧ lat ≤ 90 then some (lng, lat) else none
  | _ => none

/-- The point a `location` sub-document denotes, when it is a valid GeoJSON point. -/
def GeoPoint.point? (p : GeoPoint) : Option (ℚ × ℚ) :=
  if p.type = "Point" then pointOf p.coordinates else none

/-! ## Store operations -/

/-- Insertion into `hives`: the unique index on `hiveId`, then the `2dsphere`
index on `location`. -/
def Store.insertHive (s : Store) (h : Hive) : Except String Store :=
  if s.hives.any (fun x => decide (x.hiveId = h.hiveId)) then
    .error ("E11000 duplicate key error collection: beehiveDB.hives index: hiveId_1 dup key: " ++ h.hiveId)
  else if h.location.point?.isNone then
    .error "Can't extract geo keys: location is not a valid point"
  else .ok { s with hives := s.hives ++ [h] }

/-- Insertion into `crops`: the `2dsphere` index on `location`. -/
def Store.insertCrop (s : Store) (c : Crop) : Except String Store :=
  if c.location.point?.isNone then
    .error "Can't extract geo keys: location is not a valid point"
  else .ok { s with crops := s.crops ++ [c] }

/-- The call `hive.save()`: validate, then insert. -/
def saveHive (env : Env) (now : Int) (s : Store) (r : RawHive) : Except String (Hive × Store) :=
  match validateHive env now r with
  | .error e => .error e
  | .ok h =>
    match s.insertHive h with
    | .error e => .error e
    | .ok s' => .ok (h, s')

/-- The call `crop.save()`: validate, then insert. -/
def saveCrop (env : Env) (now : Int) (s : Store) (r : RawCrop) : Except String (Crop × Store) :=
  match validateCrop env now r with
  | .error e => .error e
  | .ok c =>
    match s.insertCrop c with
    | .error e => .error e
    | .ok s' => .ok (c, s')

/-- The filter object of `Hive.find`: the bounds on `datePlaced` that were set. -/
structure HiveQuery where
  gte : Option JSDate
  lte : Option JSDate

/-- Cast of an optional date bound of a query. -/
def castBound : Option JSDate → Except String (Option Int)
  | none => .ok none
  | some d =>
    match castQueryDate d with
    | .ok t => .ok (some t)
    | .error e => .error ("datePlaced: " ++ e)

/-- The documents a cast Hive filter selects. -/
def hiveMatches (lo hi : Option Int) (h : Hive) : Bool :=
  (match lo with
    | none => true
    | some t => decide (t ≤ h.datePlaced))
  && (match hi with
    | none => true
    | some t => decide (h.datePlaced ≤ t))

/-- Cast of a Hive filter to a predicate on documents. -/
def HiveQuery.cast (q : HiveQuery) : Except String (Hive → Bool) :=
  match castBound q.gte, castBound q.lte with
  | .ok lo, .ok hi => .ok (hiveMatches lo hi)
  | .error e, _ => .error e
  | _, .error e => .error e

/-- The store's reading of a `skip` value: a non-negative integer. -/
def skipCount : JSNum → Except String Nat
  | .fin q =>
    if q.den = 1 ∧ 0 ≤ q.num then .ok q.num.toNat
    else .error "skip value must be a non-negative integer"
  | _ => .error "skip value must be a non-negative integer"

/-- The store's reading of a `limit` value: an integer; `0` means no limit and
a negative value asks for its absolute value. -/
def limitCap : JSNum → Except String (Option Nat)
  | .fin q =>
    if q.den = 1 then (if q.num = 0 then .ok none else .ok (some q.num.natAbs))
    else .error "limit value must be an integer"
  | _ => .error "limit value must be an integer"

/-- The order of `.sort({ datePlaced: -1 })`: latest first. -/
def latestFirst (a b : Hive) : Prop := b.datePlaced ≤ a.datePlaced

instance : DecidableRel latestFirst := fun a b => Int.decLe b.datePlaced a.datePlaced

/-- The query `Hive.find(q).skip(skip).limit(limit).sort({ datePlaced: -1 })`:
the matching documents are sorted, then skipped, then capped. -/
def Store.findHives (s : Store) (q : HiveQuery) (skip limit : JSNum) : Except String (List Hive) :=
  match q.cast, skipCount skip, limitCap limit with
  | .ok p, .ok k, .ok cap =>
    let rest := ((s.hives.filter p).insertionSort latestFirst).drop k
    .ok (match cap with
      | none => rest
      | some n => rest.take n)
  | .error e, _, _ => .error e
  | _, .error e, _ => .error e
  | _, _, .error e => .error e

/-- The query `Hive.countDocuments(q)`. -/
def Store.countHives (s : Store) (q : HiveQuery) : Except String Nat :=
  match q.cast with
  | .ok p => .ok (s.hives.filter p).length
  | .error e => .error e

/-- The filter object of `Crop.find`: an optional `name` condition, the
`$near` point and `$maxDistance`, and the two bounds on the flowering window. -/
structure CropQuery where
  name : Option NameField
  coordinates : List JSVal
  maxDistance : JSNum
  startLte : JSDate
  endGte : JSDate

/-- The store's reading of `$maxDistance`: a non-negative number. -/
def maxDistanceOf : JSNum → Except String (Option ℚ)
  | .fin d => if 0 ≤ d then .ok (some d) else .error "$maxDistance must be non-negative"
  | .posInf => .ok none
  | _ => .error "$maxDistance must be non-negative"

/-- The `name` condition on a stored crop: none when the filter has no `name`
key; `undefined` is sent as null, which no stored crop matches because `name`
is required; a string asks for that name; `{ $ne: s }` asks for any other name. -/
def nameMatches : Option NameField → Crop → Bool
  | none, _ => true
  | some .absent, _ => false
  | some (.str n), c => decide (c.name = n)
  | some (.ne n), c => decide (c.name ≠ n)

/-- Whether a stored crop lies within `bound` metres of `center`. -/
def withinDistance (env : Env) (center : ℚ × ℚ) (bound : Option ℚ) (c : Crop) : Bool :=
  match c.location.point? with
  | none => false
  | some p =>
    match bound with
    | none => true
    | some d => decide (env.dist p center ≤ d)

/-- The documents a cast Crop filter selects. -/
def cropMatches (env : Env) (name : Option NameField) (center : ℚ × ℚ) (bound : Option ℚ)
    (startLte endGte : Int) (c : Crop) : Bool :=
  nameMatches name c && withinDistance env center bound c
    && decide (c.floweringStart ≤ startLte) && decide (endGte ≤ c.floweringEnd)

/-- Distance from a stored crop to the `$near` point (the sort key of `$near`). -/
def distanceTo (env : Env) (center : ℚ × ℚ) (c : Crop) : ℚ :=
  match c.location.point? with
  | none => 0
  | some p => env.dist p center

/-- The order of `$near`: nearest first. -/
def nearestFirst (env : Env) (center : ℚ × ℚ) (a b : Crop) : Prop :=
  distanceTo env center a ≤ distanceTo env center b

instance (env : Env) (center : ℚ × ℚ) : DecidableRel (nearestFirst env center) :=
  fun a b => inferInstanceAs (Decidable (distanceTo env center a ≤ distanceTo env center b))

/-- The query `Crop.find(q)` with a `$near` condition: the filter is cast, the
point must be a valid GeoJSON point, and the matches come nearest first. -/
def Store.findCrops (env : Env) (s : Store) (q : CropQuery) : Except String (List Crop) :=
  match castCoordinates env q.coordinates, maxDistanceOf q.maxDistance,
      castQueryDate q.startLte, castQueryDate q.endGte with
  | .ok cs, .ok bound, .ok lte, .ok gte =>
    match pointOf cs with
    | none => .error "invalid point in geo near query $geometry argument"
    | some center =>
      .ok ((s.crops.filter (cropMatches env q.name center bound lte gte)).insertionSort
        (nearestFirst env center))
  | .error e, _, _, _ => .error e
  | _, .error e, _, _ => .error e
  | _, _, .error e, _ => .error ("floweringStart: " ++ e)
  | _, _, _, .error e => .error ("floweringEnd: " ++ e)

/-! ## Requests, responses and the handlers -/

/-- Body of `POST /api/hives`. -/
structure HiveBody where
  hiveId : Option String
  datePlaced : Option String
  latitude : Option String
  longitude : Option String
  numColonies : Option String

/-- Query string of `GET /api/hives`. -/
structure ListQuery where
  startDate : Option String
  endDate : Option String
  page : Option String
  limit : Option String

/-- Body of `POST /api/crops`. -/
structure CropBody where
  name : NameField
  floweringStart : Option String
  floweringEnd : Option String
  latitude : Option String
  longitude : Option String
  recommendedHiveDensity : Option String

/-- Query string of `GET /api/crops/nearby`. -/
structure NearbyQuery where
  latitude : Option String
  longitude : Option String
  radius : Option String
  date : Option String

/-- A response: the status and the JSON body, one constructor per shape of body. -/
inductive Response where
  /-- Body `{ message, hive }`. -/
  | hiveCreated (status : Nat) (message : String) (hive : Hive)
  /-- Body `{ total, page, limit, data }`. -/
  | hiveList (status : Nat) (total : Nat) (page limit : JSNum) (data : List Hive)
  /-- Body `{ message, crop }`. -/
  | cropCreated (status : Nat) (message : String) (crop : Crop)
  /-- Body `{ message }`. -/
  | message (status : Nat) (message : String)
  /-- Body `{ message, crops }` or, without a message, `{ crops }`. -/
  | cropList (status : Nat) (message : Option String) (crops : List Crop)
  /-- Body `{ error }`. -/
  | error (status : Nat) (error : String)
  deriving DecidableEq

/-- A call on the store made by a handler. -/
inductive StoreOp where
  | hiveSave
  | hiveFind
  | hiveCount
  | cropFind
  | cropSave
  deriving DecidableEq

/-- The status code of a response. -/
def Response.status : Response → Nat
  | .hiveCreated st _ _ => st
  | .hiveList st _ _ _ _ => st
  | .cropCreated st _ _ => st
  | .message st _ => st
  | .cropList st _ _ => st
  | .error st _ => st

/-- The `data` array of a hive listing (empty for any other body). -/
def Response.data : Response → List Hive
  | .hiveList _ _ _ _ data => data
  | _ => []

/-- What handling one request produces. -/
structure Outcome where
  response : Response
  store : Store
  ops : List StoreOp
  deriving DecidableEq

/-- The object the handler of `POST /api/hives` passes to `new Hive`. -/
def hiveDocOf (b : HiveBody) : RawHive :=
  { hiveId := b.hiveId, datePlaced := b.datePlaced, latitude := b.latitude,
    longitude := b.longitude, numColonies := b.numColonies,
    location := { type := some "Point",
                  coordinates := [JSVal.ofParam b.longitude, JSVal.ofParam b.latitude] } }

/-- The handler of `POST /api/hives`. -/
def createHive (env : Env) (now : Int) (s : Store) (b : HiveBody) : Outcome :=
  match saveHive env now s (hiveDocOf b) with
  | .ok (hive, s') =>
    { response := .hiveCreated 201 "Hive added successfully" hive, store := s', ops := [.hiveSave] }
  | .error msg => { response := .error 400 msg, store := s, ops := [.hiveSave] }

/-- The filter object built by the handler of `GET /api/hives`. -/
def hiveQueryOf (env : Env) (q : ListQuery) : HiveQuery :=
  if (JSVal.ofParam q.startDate).truthy || (JSVal.ofParam q.endDate).truthy then
    { gte := if (JSVal.ofParam q.startDate).truthy then some (env.dateOf q.startDate) else none,
      lte := if (JSVal.ofParam q.endDate).truthy then some (env.dateOf q.endDate) else none }
  else { gte := none, lte := none }

/-- The value of `page` after destructuring with its default `1`. -/
def pageOf (q : ListQuery) : JSVal :=
  match q.page with
  | none => .num (.fin 1)
  | some p => .str p

/-- The value of `limit` after destructuring with its default `10`. -/
def limitOf (q : ListQuery) : JSVal :=
  match q.limit with
  | none => .num (.fin 10)
  | some l => .str l

/-- The handler of `GET /api/hives`. -/
def listHives (env : Env) (s : Store) (q : ListQuery) : Outcome :=
  let page := pageOf q
  let limit := limitOf q
  let query := hiveQueryOf env q
  let skip := ((env.numberOf page).sub (.fin 1)).mul (env.numberOf limit)
  match s.findHives query skip (env.parseIntOf limit) with
  | .error msg => { response := .error 500 msg, store := s, ops := [.hiveFind] }
  | .ok newHives =>
    match s.countHives query with
    | .error msg => { response := .error 500 msg, store := s, ops := [.hiveFind, .hiveCount] }
    | .ok total =>
      { response := .hiveList 200 total (env.parseIntOf page) (env.parseIntOf limit) newHives,
        store := s, ops := [.hiveFind, .hiveCount] }

/-- The function `isValidCoord(lat, lng)`. -/
def isValidCoord (lat lng : JSNum) : Bool :=
  !lat.isNaN && !lng.isNaN &&
  lat.ge (.fin (-90)) && lat.le (.fin 90) &&
  lng.ge (.fin (-180)) && lng.le (.fin 180)

/-- The overlap pre-check query of `POST /api/crops`. -/
def overlapQuery (env : Env) (b : CropBody) : CropQuery :=
  { name := some b.name,
    coordinates := [JSVal.ofParam b.longitude, JSVal.ofParam b.latitude],
    maxDistance := .fin 2000,
    startLte := env.dateOf b.floweringEnd,
    endGte := env.dateOf b.floweringStart }

/-- The object the handler of `POST /api/crops` passes to `new Crop`. -/
def cropDocOf (b : CropBody) : RawCrop :=
  { name := b.name, floweringStart := b.floweringStart, floweringEnd := b.floweringEnd,
    latitude := b.latitude, longitude := b.longitude,
    recommendedHiveDensity := b.recommendedHiveDensity,
    location := { type := some "Point",
                  coordinates := [JSVal.ofParam b.longitude, JSVal.ofParam b.latitude] } }

/-- The handler of `POST /api/crops`. -/
def createCrop (env : Env) (now : Int) (s : Store) (b : CropBody) : Outcome :=
  match s.findCrops env (overlapQuery env b) with
  | .error msg => { response := .error 400 msg, store := s, ops := [.cropFind] }
  | .ok overlapping =>
    if overlapping.length > 0 then
      { response := .message 409 "Overlapping crop exists in the same area", store := s,
        ops := [.cropFind] }
    else
      match saveCrop env now s (cropDocOf b) with
      | .ok (crop, s') =>
        { response := .cropCreated 201 "Crop entry added successfully" crop, store := s',
          ops := [.cropFind, .cropSave] }
      | .error msg => { response := .error 400 msg, store := s, ops := [.cropFind, .cropSave] }

/-- The value of `radius` after destructuring with its default `100`. -/
def radiusOf (q : NearbyQuery) : JSVal :=
  match q.radius with
  | none => .num (.fin 100)
  | some r => .str r

/-- The date searched by `GET /api/crops/nearby`: `date ? new Date(date) : new Date()`,
where `now` is the clock reading of `new Date()`. -/
def searchDateOf (env : Env) (now : Int) (q : NearbyQuery) : JSDate :=
  if (JSVal.ofParam q.date).truthy then env.dateOf q.date else some now

/-- The query issued by `GET /api/crops/nearby`. -/
def nearbyQuery (env : Env) (now : Int) (q : NearbyQuery) : CropQuery :=
  { name := none,
    coordinates := [.num (env.parseFloatOf (JSVal.ofParam q.longitude)),
                    .num (env.parseFloatOf (JSVal.ofParam q.latitude))],
    maxDistance := (env.parseFloatOf (radiusOf q)).mul (.fin 1000),
    startLte := searchDateOf env now q,
    endGte := searchDateOf env now q }

/-- The handler of `GET /api/crops/nearby`. -/
def nearbyCrops (env : Env) (now : Int) (s : Store) (q : NearbyQuery) : Outcome :=
  let lat := env.parseFloatOf (JSVal.ofParam q.latitude)
  let lng := env.parseFloatOf (JSVal.ofParam q.longitude)
  if !isValidCoord lat lng then
    { response := .error 400 "Invalid latitude or longitude", store := s, ops := [] }
  else
    match s.findCrops env (nearbyQuery env now q) with
    | .error msg => { response := .error 500 msg, store := s, ops := [.cropFind] }
    | .ok crops =>
      if crops.length = 0 then
        { response := .cropList 200 (some "No flowering crops found nearby.") [], store := s,
          ops := [.cropFind] }
      else { response := .cropList 200 none crops, store := s, ops := [.cropFind] }

/-- A request to the API. -/
inductive Request where
  | createHive (b : HiveBody)
  | listHives (q : ListQuery)
  | createCrop (b : CropBody)
  | nearbyCrops (q : NearbyQuery)

/-- Dispatch of a request arriving at clock reading `now`. -/
def handle (env : Env) (now : Int) (s : Store) : Request → Outcome
  | .createHive b => createHive env now s b
  | .listHives q => listHives env s q
  | .createCrop b => createCrop env now s b
  | .nearbyCrops q => nearbyCrops env now s q

/-- The store after a sequence of requests handled one after the other, each
with its clock reading. -/
def run (env : Env) : Store → List (Int × Request) → Store
  | s, [] => s
  | s, (now, r) :: rest => run env (handle env now s r).store rest

/-! ## A concrete environment

`jsEnv` implements the built-ins on the usual textual forms: decimal and
hexadecimal integers for `parseInt`; signed decimal literals with fraction and
exponent and `Infinity` for `parseFloat` and `Number`; the date-only form
`YYYY-MM-DD` (read as UTC midnight) for the `Date` constructor. It is used for
the worked examples only. -/

/-- White space skipped by the numeric built-ins. -/
def isJsSpace (c : Char) : Bool :=
  c.toNat = 9 || c.toNat = 10 || c.toNat = 11 || c.toNat = 12 || c.toNat = 13
    || c.toNat = 32 || c.toNat = 160 || c.toNat = 65279

/-- Value of a character as a digit in the given radix. -/
def digitOf (radix : Nat) (c : Char) : Option Nat :=
  let v :=
    if 48 ≤ c.toNat ∧ c.toNat ≤ 57 then c.toNat - 48
    else if 97 ≤ c.toNat ∧ c.toNat ≤ 122 then c.toNat - 87
    else if 65 ≤ c.toNat ∧ c.toNat ≤ 90 then c.toNat - 55
    else radix
  if v < radix then some v else none

/-- Reads the longest run of digits: the value accumulated on `acc`, the number
of digits read, and the rest of the input. -/
def readDigits (radix : Nat) : List Char → Nat → Nat → Nat × Nat × List Char
  | [], acc, n => (acc, n, [])
  | c :: cs, acc, n =>
    match digitOf radix c with
    | some d => readDigits radix cs (acc * radix + d) (n + 1)
    | none => (acc, n, c :: cs)

/-- Reads an optional sign: whether it is a minus, and the rest. -/
def readSign : List Char → Bool × List Char
  | '-' :: cs => (true, cs)
  | '+' :: cs => (false, cs)
  | cs => (false, cs)

/-- Reads an optional exponent part `e[+-]digits`; without digits nothing is consumed. -/
def readExponent (cs : List Char) : Int × List Char :=
  match cs with
  | c :: rest =>
    if c = 'e' ∨ c = 'E' then
      match readSign rest with
      | (negative, ds) =>
        match readDigits 10 ds 0 0 with
        | (v, n, after) =>
          if n = 0 then (0, cs)
          else (if negative then -(v : Int) else (v : Int), after)
    else (0, cs)
  | [] => (0, cs)

/-- Reads the longest unsigned decimal literal at the head of the input: the
mantissa `m` and decimal exponent `e` of the value `m * 10 ^ e`, and the rest. -/
def readDecimal (cs : List Char) : Option (Nat × Int × List Char) :=
  match readDigits 10 cs 0 0 with
  | (ip, ni, r1) =>
    match r1 with
    | '.' :: t =>
      match readDigits 10 t ip 0 with
      | (m, nf, r2) =>
        if ni = 0 ∧ nf = 0 then none
        else
          match readExponent r2 with
          | (e, r3) => some (m, e - (nf : Int), r3)
    | _ =>
      if ni = 0 then none
      else
        match readExponent r1 with
        | (e, r3) => some (ip, e, r3)

/-- The exact value `m * 10 ^ e`. -/
def scale10 (m : Nat) (e : Int) : ℚ :=
  if 0 ≤ e then ((m * 10 ^ e.toNat : Nat) : ℚ) else mkRat (m : Int) (10 ^ (-e).toNat)

/-- A finite number with a sign. -/
def signed (negative : Bool) (q : ℚ) : JSNum :=
  .fin (if negative then -q else q)

/-- The built-in `parseInt` on a string, without a radix argument. -/
def jsParseInt (s : String) : JSNum :=
  match readSign (s.toList.dropWhile isJsSpace) with
  | (negative, r) =>
    let body : Nat × List Char :=
      match r with
      | '0' :: 'x' :: t => (16, t)
      | '0' :: 'X' :: t => (16, t)
      | _ => (10, r)
    match readDigits body.1 body.2 0 0 with
    | (v, n, _) => if n = 0 then .nan else signed negative (v : ℚ)

/-- The built-in `parseFloat` on a string. -/
def jsParseFloat (s : String) : JSNum :=
  match readSign (s.toList.dropWhile isJsSpace) with
  | (negative, r) =>
    if "Infinity".toList.isPrefixOf r then (if negative then .negInf else .posInf)
    else
      match readDecimal r with
      | none => .nan
      | some (m, e, _) => signed negative (scale10 m e)

/-- An unsigned integer literal in the given radix that spans the whole input. -/
def radixLiteral (radix : Nat) (cs : List Char) : JSNum :=
  match readDigits radix cs 0 0 with
  | (v, n, rest) => if n = 0 ∨ rest ≠ [] then .nan else .fin (v : ℚ)

/-- The coercion `Number(s)` of a string. -/
def jsToNumber (s : String) : JSNum :=
  let body := ((s.toList.dropWhile isJsSpace).reverse.dropWhile isJsSpace).reverse
  match body with
  | [] => .fin 0
  | '0' :: 'x' :: t => radixLiteral 16 t
  | '0' :: 'X' :: t => radixLiteral 16 t
  | '0' :: 'o' :: t => radixLiteral 8 t
  | '0' :: 'O' :: t => radixLiteral 8 t
  | '0' :: 'b' :: t => radixLiteral 2 t
  | '0' :: 'B' :: t => radixLiteral 2 t
  | _ =>
    match readSign body with
    | (negative, r) =>
      if r = "Infinity".toList then (if negative then .negInf else .posInf)
      else
        match readDecimal r with
        | some (m, e, []) => signed negative (scale10 m e)
        | _ => .nan

/-- Number of days in a month of the proleptic Gregorian calendar. -/
def daysInMonth (y m : Nat) : Nat :=
  if m = 2 then (if (y % 4 = 0 ∧ y % 100 ≠ 0) ∨ y % 400 = 0 then 29 else 28)
  else if m = 4 ∨ m = 6 ∨ m = 9 ∨ m = 11 then 30
  else 31

/-- Days from 1970-01-01 to the given civil date. -/
def daysFromCivil (y m d : Nat) : Int :=
  let y' : Int := if m ≤ 2 then (y : Int) - 1 else (y : Int)
  let era : Int := y' / 400
  let yoe : Int := y' - era * 400
  let mp : Int := if m > 2 then (m : Int) - 3 else (m : Int) + 9
  let doy : Int := (153 * mp + 2) / 5 + (d : Int) - 1
  let doe : Int := yoe * 365 + yoe / 4 - yoe / 100 + doy
  era * 146097 + doe - 719468

/-- Reads exactly `k` decimal digits. -/
def readFixed : Nat → List Char → Nat → Option (Nat × List Char)
  | 0, cs, acc => some (acc, cs)
  | _ + 1, [], _ => none
  | k + 1, c :: cs, acc =>
    match digitOf 10 c with
    | some d => readFixed k cs (acc * 10 + d)
    | none => none

/-- The `Date` constructor on the date-only form `YYYY-MM-DD`: UTC midnight of
that day in milliseconds; any other text is an Invalid Date here. -/
def jsDateParse (s : String) : JSDate :=
  match readFixed 4 s.toList 0 with
  | some (y, '-' :: r1) =>
    match readFixed 2 r1 0 with
    | some (m, '-' :: r2) =>
      match readFixed 2 r2 0 with
      | some (d, []) =>
        if 1 ≤ m ∧ m ≤ 12 ∧ 1 ≤ d ∧ d ≤ daysInMonth y m then
          some (daysFromCivil y m d * 86400000)
        else none
      | _ => none
    | _ => none
  | _ => none

/-- A stand-in for the distance of the `2dsphere` index: the taxicab distance in
degrees at 111320 metres per degree. It is symmetric and zero between equal
points. The worked examples use it at coincident points and at two points a
tenth of a degree of longitude apart at latitude 10 (11132 metres here, about
10960 metres on the sphere), against radii of 5, 20 and 100 kilometres. -/
def gridDist (p q : ℚ × ℚ) : ℚ :=
  111320 * (|p.1 - q.1| + |p.2 - q.2|)

/-- The concrete environment of the worked examples. -/
def jsEnv : Env :=
  { toNumber := jsToNumber, parseInt := jsParseInt, parseFloat := jsParseFloat,
    dateParse := jsDateParse, dist := gridDist }

/-! ## The properties, as the specification words them, and the fixtures of the examples -/

/-- A number within the closed range `[lo, hi]`: a finite value between the bounds. -/
def InRange (lo hi : ℚ) (x : JSNum) : Prop :=
  ∃ a : ℚ, x = .fin a ∧ lo ≤ a ∧ a ≤ hi

/-- The pagination contract of `list hives` as the specification words it, for
page `P` and limit `L`: a page of `min(L, max(0, N - (P-1)*L))` records and a
total of `N`, where `N` is the number of stored hives. -/
def PaginationContract (env : Env) (s : Store) (q : ListQuery) (P L : Int) : Prop :=
  ∃ total page limit data,
    (listHives env s q).response = .hiveList 200 total page limit data
      ∧ (data.length : Int) = min L (max 0 ((s.hives.length : Int) - (P - 1) * L))
      ∧ total = s.hives.length

/-- The body of a hive-creation request with the given id and date, placed at
latitude 10, longitude 20. -/
def hiveAt (hiveId datePlaced : String) : HiveBody :=
  { hiveId := some hiveId, datePlaced := some datePlaced, latitude := some "10",
    longitude := some "20", numColonies := none }

/-- A store of five hives, built through the API. -/
def fiveHives : Store :=
  run jsEnv Store.empty
    [(0, .createHive (hiveAt "H1" "2024-01-01")), (0, .createHive (hiveAt "H2" "2024-01-02")),
     (0, .createHive (hiveAt "H3" "2024-01-03")), (0, .createHive (hiveAt "H4" "2024-01-04")),
     (0, .createHive (hiveAt "H5" "2024-01-05"))]

/-- The point a create-crop request asks for: its `[longitude, latitude]` read
as numbers, when they form a valid point. -/
def requestedPoint (env : Env) (b : CropBody) : Option (ℚ × ℚ) :=
  match castCoordinates env [JSVal.ofParam b.longitude, JSVal.ofParam b.latitude] with
  | .ok cs => pointOf cs
  | .error _ => none

/-- The overlap condition of the specification between a stored crop and a
create-crop request: the same name, the stored crop within 2000 metres of the
requested point, and `existing.floweringStart <= new.floweringEnd` together
with `existing.floweringEnd >= new.floweringStart`. -/
def SameNameOverlap (env : Env) (b : CropBody) (c : Crop) : Prop :=
  b.name = .str c.name
    ∧ (∃ p center, c.location.point? = some p ∧ requestedPoint env b = some center
        ∧ env.dist p center ≤ 2000)
    ∧ (∃ newEnd newStart, env.dateOf b.floweringEnd = some newEnd
        ∧ env.dateOf b.floweringStart = some newStart
        ∧ c.floweringStart ≤ newEnd ∧ newStart ≤ c.floweringEnd)

/-- The stored crop's name meets the request's `name`: it equals a string name,
it differs from the string of `{ $ne: s }`, and nothing meets a missing name. -/
def NameField.Accepts : NameField → String → Prop
  | .absent, _ => False
  | .str n, x => x = n
  | .ne n, x => x ≠ n

/-- What the overlap pre-check looks for: a stored crop whose name meets the
request's `name`, within 2000 metres of the requested point, whose window
overlaps the requested one. For a string `name` this is `SameNameOverlap`. -/
def OverlapsRequest (env : Env) (b : CropBody) (c : Crop) : Prop :=
  b.name.Accepts c.name
    ∧ (∃ p center, c.location.point? = some p ∧ requestedPoint env b = some center
        ∧ env.dist p center ≤ 2000)
    ∧ (∃ newEnd newStart, env.dateOf b.floweringEnd = some newEnd
        ∧ env.dateOf b.floweringStart = some newStart
        ∧ c.floweringStart ≤ newEnd ∧ newStart ≤ c.floweringEnd)

/-- A create-crop request for the named crop at latitude 10, longitude 20. -/
def cropAt (name floweringStart floweringEnd : String) (density : Option String) : CropBody :=
  { name := .str name, floweringStart := some floweringStart, floweringEnd := some floweringEnd,
    latitude := some "10.0", longitude := some "20.0", recommendedHiveDensity := density }

/-- A store holding one crop, flowering from 2024-03-01 to 2024-04-01 at
latitude 10, longitude 20, built through the API. -/
def oneCrop : Store :=
  run jsEnv Store.empty [(0, .createCrop (cropAt "Clover" "2024-03-01" "2024-04-01" (some "2")))]

/-- Two crop records conflict: the same name, flowering windows that overlap as
closed intervals (neither ends before the other begins), and locations within
2000 metres of each other. -/
def Conflict (env : Env) (a b : Crop) : Prop :=
  a.name = b.name
    ∧ (a.floweringStart ≤ b.floweringEnd ∧ b.floweringStart ≤ a.floweringEnd)
    ∧ ∃ p q, a.location.point? = some p ∧ b.location.point? = some q ∧ env.dist p q ≤ 2000

/-- No two distinct records of a crop collection conflict. -/
def ConflictFree (env : Env) (crops : List Crop) : Prop :=
  ∀ i j : Fin crops.length, i ≠ j → ¬ Conflict env (crops.get i) (crops.get j)

/-- The crops a nearby search is specified to return: those whose location lies
within `metres` of `center` and whose flowering window contains the date `d`
(`floweringStart <= d <= floweringEnd`). -/
def floweringNear (env : Env) (center : ℚ × ℚ) (metres : ℚ) (d : Int) (c : Crop) : Bool :=
  match c.location.point? with
  | none => false
  | some p => decide (env.dist p center ≤ metres ∧ c.floweringStart ≤ d ∧ d ≤ c.floweringEnd)

/-- The contract of `find nearby crops` as the specification words it, for a
query point `center`, a radius of `r` kilometres and a date `d`: the crops
returned are exactly the stored crops within `r * 1000` metres of the point
whose window contains `d`; when there is none the response is the message with
an empty list, otherwise it is the list alone. -/
def NearbyContract (env : Env) (now : Int) (s : Store) (q : NearbyQuery)
    (center : ℚ × ℚ) (r : ℚ) (d : Int) : Prop :=
  ∃ crops : List Crop,
    crops.Perm (s.crops.filter (floweringNear env center (r * 1000) d))
      ∧ (crops = [] → (nearbyCrops env now s q).response
          = .cropList 200 (some "No flowering crops found nearby.") [])
      ∧ (crops ≠ [] → (nearbyCrops env now s q).response = .cropList 200 none crops)


instance : IsTotal Hive latestFirst := ⟨fun a b => le_total b.datePlaced a.datePlaced⟩

instance : IsTrans Hive latestFirst := ⟨fun _ _ _ hab hbc => le_trans hbc hab⟩

instance (env : Env) (center : ℚ × ℚ) : IsTotal Crop (nearestFirst env center) :=
  ⟨fun a b => le_total (distanceTo env center a) (distanceTo env center b)⟩

instance (env : Env) (center : ℚ × ℚ) : IsTrans Crop (nearestFirst env center) :=
  ⟨fun _ _ _ hab hbc => le_trans hab hbc⟩

/-- A `location` mirrors a record's coordinates: it is a `Point` whose
`coordinates` are `[longitude, latitude]`, longitude first. -/
def Mirrored (loc : GeoPoint) (longitude latitude : JSNum) : Prop :=
  loc.type = "Point" ∧ loc.coordinates = [longitude, latitude]

/-- The request `GET /api/hives` without any parameter: no filter, the default
page 1 and the default limit 10. -/
def listAll : ListQuery :=
  { startDate := none, endDate := none, page := none, limit := none }

/-- The unfiltered default listing answers 200 with a `data` array that
contains the hive exactly once. -/
def ListedOnce (env : Env) (s : Store) (h : Hive) : Prop :=
  (listHives env s listAll).response.status = 200
    ∧ (listHives env s listAll).response.data.count h = 1

/-- A store of ten hives placed on the first ten days of February 2024, built
through the API. -/
def tenHives : Store :=
  run jsEnv Store.empty
    [(0, .createHive (hiveAt "H1" "2024-02-01")), (0, .createHive (hiveAt "H2" "2024-02-02")),
     (0, .createHive (hiveAt "H3" "2024-02-03")), (0, .createHive (hiveAt "H4" "2024-02-04")),
     (0, .createHive (hiveAt "H5" "2024-02-05")), (0, .createHive (hiveAt "H6" "2024-02-06")),
     (0, .createHive (hiveAt "H7" "2024-02-07")), (0, .createHive (hiveAt "H8" "2024-02-08")),
     (0, .createHive (hiveAt "H9" "2024-02-09")), (0, .createHive (hiveAt "H10" "2024-02-10"))]

/-- A create-crop request that misses a required field, or whose
`recommendedHiveDensity` is a number below 1. -/
def MissingOrLowDensity (env : Env) (b : CropBody) : Prop :=
  b.name = .absent ∨ b.floweringStart = none ∨ b.floweringEnd = none ∨ b.latitude = none
    ∨ b.longitude = none ∨ b.recommendedHiveDensity = none
    ∨ ∃ d, b.recommendedHiveDensity = some d
        ∧ ((∃ x : ℚ, env.toNumber d = .fin x ∧ x < 1) ∨ env.toNumber d = .negInf)

/-- The same documents, scanned in a possibly different order. The store keeps
its documents in no particular order and returns documents that tie on a sort
key in any order, so a read is modelled as running over some store with the
same documents. -/
def Store.SameDocs (s t : Store) : Prop :=
  t.hives.Perm s.hives ∧ t.crops.Perm s.crops

/-- No two distinct hive records share a `datePlaced`. -/
def DistinctDates (hives : List Hive) : Prop :=
  ∀ a ∈ hives, ∀ b ∈ hives, a.datePlaced = b.datePlaced → a = b

/-- No two distinct crop records are equally far from `center`. -/
def DistinctDistances (env : Env) (center : ℚ × ℚ) (crops : List Crop) : Prop :=
  ∀ a ∈ crops, ∀ b ∈ crops, distanceTo env center a = distanceTo env center b → a = b

/-- The point a nearby-crops request asks about, when its coordinates parse to
finite numbers. -/
def queryCenter (env : Env) (q : NearbyQuery) : Option (ℚ × ℚ) :=
  match env.parseFloatOf (JSVal.ofParam q.longitude),
      env.parseFloatOf (JSVal.ofParam q.latitude) with
  | .fin lo, .fin la => some (lo, la)
  | _, _ => none

/-- Two hives placed on the same day, created in this order, built through the API. -/
def twinHives (first second : String) : Store :=
  run jsEnv Store.empty
    [(0, .createHive (hiveAt first "2024-01-01")), (0, .createHive (hiveAt second "2024-01-01"))]

/-- A nearby-crops request at latitude 10.0, longitude 20.0 with the default
radius and no date. -/
def nearbyNow : NearbyQuery :=
  { latitude := some "10.0", longitude := some "20.0", radius := none, date := none }

/-! # Theorems -/
/-! ## Coordinate validation (C4) -/

theorem isValidCoord_iff (lat lng : JSNum) :
    isValidCoord lat lng = true ↔ InRange (-90) 90 lat ∧ InRange (-180) 180 lng := by
  unfold InRange
  cases lat <;> cases lng <;>
    simp [isValidCoord, JSNum.isNaN, JSNum.ge, JSNum.le]
  tauto

theorem not_inRange_nan (lo hi : ℚ) : ¬ InRange lo hi .nan := by
  rintro ⟨a, h, _⟩
  cases h

/-- C4. A nearby-crops request whose parsed latitude or longitude is `NaN`, or
whose latitude is not within `[-90, 90]`, or whose longitude is not within
`[-180, 180]`, is answered 400 with error 'Invalid latitude or longitude',
the store is untouched and no store operation is issued; `isValidCoord` holds
exactly for two finite numbers within those closed ranges; `latitude=200` is
rejected and the four boundary values are accepted. -/
theorem nearbyCrops_rejects_invalid_coordinates :
    (∀ (env : Env) (now : Int) (s : Store) (q : NearbyQuery),
      (env.parseFloatOf (JSVal.ofParam q.latitude) = .nan
        ∨ env.parseFloatOf (JSVal.ofParam q.longitude) = .nan
        ∨ ¬ InRange (-90) 90 (env.parseFloatOf (JSVal.ofParam q.latitude))
        ∨ ¬ InRange (-180) 180 (env.parseFloatOf (JSVal.ofParam q.longitude))) →
      nearbyCrops env now s q =
        { response := .error 400 "Invalid latitude or longitude", store := s, ops := [] })
    ∧ (∀ lat lng : JSNum,
        isValidCoord lat lng = true ↔ InRange (-90) 90 lat ∧ InRange (-180) 180 lng)
    ∧ (∀ (now : Int) (s : Store) (longitude radius date : Option String),
        nearbyCrops jsEnv now s
            { latitude := some "200", longitude := longitude, radius := radius, date := date }
          = { response := .error 400 "Invalid latitude or longitude", store := s, ops := [] })
    ∧ isValidCoord (.fin (-90)) (.fin (-180)) = true
    ∧ isValidCoord (.fin 90) (.fin 180) = true := by
  have key : ∀ (env : Env) (now : Int) (s : Store) (q : NearbyQuery),
      ¬ (InRange (-90) 90 (env.parseFloatOf (JSVal.ofParam q.latitude))
          ∧ InRange (-180) 180 (env.parseFloatOf (JSVal.ofParam q.longitude))) →
      nearbyCrops env now s q =
        { response := .error 400 "Invalid latitude or longitude", store := s, ops := [] } := by
    intro env now s q h
    rw [← isValidCoord_iff] at h
    simp [nearbyCrops, h]
  refine ⟨?_, isValidCoord_iff, ?_, ?_, ?_⟩
  · intro env now s q h
    apply key
    rintro ⟨h1, h2⟩
    rcases h with h | h | h | h
    · rw [h] at h1; exact not_inRange_nan _ _ h1
    · rw [h] at h2; exact not_inRange_nan _ _ h2
    · exact h h1
    · exact h h2
  · intro now s longitude radius date
    apply key
    rintro ⟨⟨a, h, _, h90⟩, _⟩
    have h200 : jsEnv.parseFloatOf (JSVal.ofParam (some "200")) = .fin 200 := by decide!
    simp only [h200] at h
    injection h with h
    rw [← h] at h90
    norm_num at h90
  · decide!
  · decide!

/-- C4, at a concrete request: latitude `abc` parses to `NaN`, so the request is
answered 400 without any store operation. -/
theorem nearbyCrops_rejects_invalid_coordinates_witness :
    nearbyCrops jsEnv 0 fiveHives
        { latitude := some "abc", longitude := some "20", radius := none, date := none }
      = { response := .error 400 "Invalid latitude or longitude", store := fiveHives, ops := [] } :=
  nearbyCrops_rejects_invalid_coordinates.1 jsEnv 0 fiveHives _ (Or.inl (by decide!))

/-! ## Pagination of the hive listing (C1) -/

theorem JSNum.natCast_sub_mul (P L : ℕ) (hP : 1 ≤ P) :
    ((JSNum.fin (P : ℚ)).sub (.fin 1)).mul (.fin (L : ℚ)) = .fin (((P - 1) * L : ℕ) : ℚ) := by
  show JSNum.fin (((P : ℚ) + -1) * (L : ℚ)) = _
  congr 1
  push_cast [Nat.cast_sub hP]
  ring

theorem skipCount_natCast (k : ℕ) : skipCount (.fin (k : ℚ)) = .ok k := by
  simp [skipCount]

theorem limitCap_natCast (L : ℕ) (hL : 1 ≤ L) : limitCap (.fin (L : ℚ)) = .ok (some L) := by
  have : L ≠ 0 := by omega
  simp [limitCap, this]

theorem hiveMatches_none (h : Hive) : hiveMatches none none h = true := rfl

theorem filter_hiveMatches_none (l : List Hive) : l.filter (hiveMatches none none) = l := by
  simp [List.filter_eq_self, hiveMatches_none]

theorem hiveQueryOf_unfiltered (env : Env) (q : ListQuery)
    (hs : (JSVal.ofParam q.startDate).truthy = false)
    (he : (JSVal.ofParam q.endDate).truthy = false) :
    hiveQueryOf env q = { gte := none, lte := none } := by
  simp [hiveQueryOf, hs, he]

theorem listHives_page (env : Env) (s : Store) (q : ListQuery) (P L : ℕ)
    (hs : (JSVal.ofParam q.startDate).truthy = false)
    (he : (JSVal.ofParam q.endDate).truthy = false)
    (hp : env.numberOf (pageOf q) = .fin (P : ℚ))
    (hl : env.numberOf (limitOf q) = .fin (L : ℚ))
    (hli : env.parseIntOf (limitOf q) = .fin (L : ℚ))
    (hP : 1 ≤ P) (hL : 1 ≤ L) :
    listHives env s q =
      { response := .hiveList 200 s.hives.length (env.parseIntOf (pageOf q)) (.fin (L : ℚ))
          (((s.hives.insertionSort latestFirst).drop ((P - 1) * L)).take L),
        store := s, ops := [.hiveFind, .hiveCount] } := by
  simp only [listHives, hiveQueryOf_unfiltered env q hs he, hp, hl, hli,
    JSNum.natCast_sub_mul P L hP, Store.findHives, Store.countHives, HiveQuery.cast, castBound,
    skipCount_natCast, limitCap_natCast L hL, filter_hiveMatches_none]

/-- C1 (amended). For a store of `N` hives and a listing request without date
filters whose `page` coerces to a positive integer `P` and whose `limit` both
coerces and parses (`parseInt`) to a positive integer `L` (the defaults 1 and
10 when omitted), the response is 200 with `data` of length
`min(L, max(0, N - (P-1)*L))` and `total = N`. -/
theorem listHives_pagination (env : Env) (s : Store) (q : ListQuery) (P L : ℕ)
    (hs : (JSVal.ofParam q.startDate).truthy = false)
    (he : (JSVal.ofParam q.endDate).truthy = false)
    (hp : env.numberOf (pageOf q) = .fin (P : ℚ))
    (hl : env.numberOf (limitOf q) = .fin (L : ℚ))
    (hli : env.parseIntOf (limitOf q) = .fin (L : ℚ))
    (hP : 1 ≤ P) (hL : 1 ≤ L) :
    PaginationContract env s q P L := by
  refine ⟨s.hives.length, env.parseIntOf (pageOf q), .fin (L : ℚ),
    ((s.hives.insertionSort latestFirst).drop ((P - 1) * L)).take L, ?_, ?_, rfl⟩
  · rw [listHives_page env s q P L hs he hp hl hli hP hL]
  · have hk : ((P : ℤ) - 1) * (L : ℤ) = (((P - 1) * L : ℕ) : ℤ) := by
      push_cast [Nat.cast_sub hP]
      ring
    rw [hk, List.length_take, List.length_drop, List.length_insertionSort]
    omega

/-- C1 (amended), at a concrete request: page 2 with limit 3 over five hives
gives a page of two records and a total of five. -/
theorem listHives_pagination_witness :
    PaginationContract jsEnv fiveHives
      { startDate := none, endDate := none, page := some "2", limit := some "3" } 2 3 :=
  listHives_pagination jsEnv fiveHives _ 2 3 (by decide!) (by decide!) (by decide!) (by decide!)
    (by decide!) (by decide) (by decide)

/-- C1 as stated fails. With five hives stored, `page=0` and the default limit
make the handler ask the store to skip `(0 - 1) * 10 = -10` documents; the store
refuses and the handler answers 500, where the stated formula promises
`min(10, max(0, 5 + 10)) = 10` records (more than the store holds). -/
theorem listHives_pagination_counterexample :
    (listHives jsEnv fiveHives
        { startDate := none, endDate := none, page := some "0", limit := none }).response
      = .error 500 "skip value must be a non-negative integer"
    ∧ ¬ PaginationContract jsEnv fiveHives
        { startDate := none, endDate := none, page := some "0", limit := none } 0 10 := by
  have h : (listHives jsEnv fiveHives
        { startDate := none, endDate := none, page := some "0", limit := none }).response
      = .error 500 "skip value must be a non-negative integer" := by decide!
  refine ⟨h, ?_⟩
  rintro ⟨total, page, limit, data, hr, _⟩
  rw [h] at hr
  cases hr


/-! ## Validation and creation of hives -/

theorem validateHive_ok {env : Env} {now : Int} {r : RawHive} {h : Hive}
    (hv : validateHive env now r = .ok h) :
    requiredString "hiveId" r.hiveId = .ok h.hiveId
      ∧ required "datePlaced" (castDate env r.datePlaced) = .ok h.datePlaced
      ∧ required "latitude" (castNumber env (JSVal.ofParam r.latitude)) = .ok h.latitude
      ∧ required "longitude" (castNumber env (JSVal.ofParam r.longitude)) = .ok h.longitude
      ∧ (∃ t, enumPoint "location.type" r.location.type = .ok t ∧ h.location.type = t.getD "")
      ∧ castCoordinates env r.location.coordinates = .ok h.location.coordinates := by
  unfold validateHive at hv
  simp only at hv
  split at hv
  · rename_i i d la lo t cs nc h1 h2 h3 h4 h5 h6 h7
    injection hv with hv
    subst hv
    exact ⟨h1, h2, h3, h4, ⟨t, h5, rfl⟩, h6⟩
  · cases hv

theorem required_ok {α : Type} {path : String} {x : Except String (Option α)} {a : α}
    (h : required path x = .ok a) : x = .ok (some a) := by
  unfold required at h
  split at h <;> simp_all

theorem castCoordinates_pair {env : Env} {u v : JSVal} {a b : JSNum}
    (hu : castNumber env u = .ok (some a)) (hv : castNumber env v = .ok (some b)) :
    castCoordinates env [u, v] = .ok [a, b] := by
  simp [castCoordinates, hu, hv]

theorem requiredString_ok {path : String} {x : Option String} {a : String}
    (h : requiredString path x = .ok a) : x = some a ∧ a ≠ "" := by
  unfold requiredString at h
  split at h
  · split at h
    · cases h
    · injection h with h; subst h; exact ⟨rfl, by assumption⟩
  · cases h

theorem insertHive_ok {s s' : Store} {h : Hive} (hi : s.insertHive h = .ok s') :
    (∀ x ∈ s.hives, x.hiveId ≠ h.hiveId) ∧ h.location.point?.isSome = true
      ∧ s' = { s with hives := s.hives ++ [h] } := by
  unfold Store.insertHive at hi
  split at hi
  · cases hi
  · split at hi
    · cases hi
    · rename_i h1 h2
      injection hi with hi
      refine ⟨?_, ?_, hi.symm⟩
      · intro x hx hxe
        apply h1
        simp only [List.any_eq_true, decide_eq_true_eq]
        exact ⟨x, hx, hxe⟩
      · cases hp : h.location.point? <;> simp_all

/-- Every outcome of `createHive`: a created hive appended to the collection, or
a 400 carrying the error of `save` with the store untouched. -/
theorem createHive_cases (env : Env) (now : Int) (s : Store) (b : HiveBody) :
    (∃ h, validateHive env now (hiveDocOf b) = .ok h
        ∧ (∀ x ∈ s.hives, x.hiveId ≠ h.hiveId)
        ∧ createHive env now s b =
          { response := .hiveCreated 201 "Hive added successfully" h,
            store := { s with hives := s.hives ++ [h] }, ops := [.hiveSave] })
    ∨ (∃ msg, saveHive env now s (hiveDocOf b) = .error msg
        ∧ createHive env now s b =
          { response := .error 400 msg, store := s, ops := [.hiveSave] }) := by
  unfold createHive
  cases hs : saveHive env now s (hiveDocOf b) with
  | error msg => exact Or.inr ⟨msg, rfl, rfl⟩
  | ok p =>
    obtain ⟨h, s'⟩ := p
    left
    unfold saveHive at hs
    cases hv : validateHive env now (hiveDocOf b) with
    | error e => simp [hv] at hs
    | ok h' =>
      simp only [hv] at hs
      cases hi : s.insertHive h' with
      | error e => simp [hi] at hs
      | ok s'' =>
        simp only [hi] at hs
        injection hs with hs
        injection hs with h1 h2
        subst h1 h2
        obtain ⟨hd, _, hs'⟩ := insertHive_ok hi
        exact ⟨h', rfl, hd, by simp [hs']⟩

theorem hive_mirrored {env : Env} {now : Int} {b : HiveBody} {h : Hive}
    (hv : validateHive env now (hiveDocOf b) = .ok h) :
    h.location.type = "Point" ∧ h.location.coordinates = [h.longitude, h.latitude]
      ∧ castNumber env (JSVal.ofParam b.longitude) = .ok (some h.longitude)
      ∧ castNumber env (JSVal.ofParam b.latitude) = .ok (some h.latitude) := by
  obtain ⟨_, _, hla, hlo, ⟨t, ht, htt⟩, hcs⟩ := validateHive_ok hv
  have hla' := required_ok hla
  have hlo' := required_ok hlo
  have hc : castCoordinates env (hiveDocOf b).location.coordinates
      = .ok [h.longitude, h.latitude] := castCoordinates_pair hlo' hla'
  rw [hc] at hcs
  injection hcs with hcs
  refine ⟨?_, hcs.symm, hlo', hla'⟩
  simp [hiveDocOf, enumPoint] at ht
  subst ht
  simpa using htt

/-! ## Validation and creation of crops -/

theorem requiredName_ok {path : String} {x : NameField} {a : String}
    (h : requiredName path x = .ok a) : x = .str a ∧ a ≠ "" := by
  unfold requiredName at h
  split at h
  · split at h
    · cases h
    · injection h with h; subst h; exact ⟨rfl, by assumption⟩
  · cases h
  · cases h

theorem minOne_ok {path : String} {x : Except String JSNum} {n : JSNum}
    (h : minOne path x = .ok n) : x = .ok n ∧ JSNum.ge n (.fin 1) = true := by
  unfold minOne at h
  split at h
  · split at h
    · injection h with h; subst h; exact ⟨rfl, by assumption⟩
    · cases h
  · cases h

theorem validateCrop_ok {env : Env} {now : Int} {r : RawCrop} {c : Crop}
    (hv : validateCrop env now r = .ok c) :
    requiredName "name" r.name = .ok c.name
      ∧ required "floweringStart" (castDate env r.floweringStart) = .ok c.floweringStart
      ∧ required "floweringEnd" (castDate env r.floweringEnd) = .ok c.floweringEnd
      ∧ required "latitude" (castNumber env (JSVal.ofParam r.latitude)) = .ok c.latitude
      ∧ required "longitude" (castNumber env (JSVal.ofParam r.longitude)) = .ok c.longitude
      ∧ required "location.type" (enumPoint "location.type" r.location.type)
          = .ok c.location.type
      ∧ castCoordinates env r.location.coordinates = .ok c.location.coordinates
      ∧ minOne "recommendedHiveDensity" (required "recommendedHiveDensity"
          (castNumber env (JSVal.ofParam r.recommendedHiveDensity)))
          = .ok c.recommendedHiveDensity := by
  unfold validateCrop at hv
  simp only at hv
  split at hv
  · rename_i n fs fe la lo t cs dn h1 h2 h3 h4 h5 h6 h7 h8
    injection hv with hv
    subst hv
    exact ⟨h1, h2, h3, h4, h5, h6, h7, h8⟩
  · cases hv

theorem insertCrop_ok {s s' : Store} {c : Crop} (hi : s.insertCrop c = .ok s') :
    c.location.point?.isSome = true ∧ s' = { s with crops := s.crops ++ [c] } := by
  unfold Store.insertCrop at hi
  split at hi
  · cases hi
  · injection hi with hi
    refine ⟨?_, hi.symm⟩
    cases hp : c.location.point? <;> simp_all

theorem saveCrop_ok {env : Env} {now : Int} {s s' : Store} {r : RawCrop} {c : Crop}
    (h : saveCrop env now s r = .ok (c, s')) :
    validateCrop env now r = .ok c ∧ c.location.point?.isSome = true
      ∧ s' = { s with crops := s.crops ++ [c] } := by
  unfold saveCrop at h
  cases hv : validateCrop env now r with
  | error e => simp [hv] at h
  | ok c' =>
    simp only [hv] at h
    cases hi : s.insertCrop c' with
    | error e => simp [hi] at h
    | ok s'' =>
      simp only [hi] at h
      injection h with h
      injection h with h1 h2
      subst h1 h2
      obtain ⟨hp, hs⟩ := insertCrop_ok hi
      exact ⟨rfl, hp, hs⟩

theorem castDate_ok {env : Env} {x : Option String} {t : Int}
    (h : castDate env x = .ok (some t)) : env.dateOf x = some t ∧ x ≠ none := by
  unfold castDate at h
  split at h
  · cases h
  · split at h
    · cases h
    · split at h
      · cases h
      · rename_i s _ t' ht
        injection h with h
        injection h with h
        subst h
        exact ⟨ht, by simp⟩

theorem castNumber_ofParam_ok {env : Env} {x : Option String} {n : JSNum}
    (h : castNumber env (JSVal.ofParam x) = .ok (some n)) :
    ∃ s, x = some s ∧ s ≠ "" ∧ env.toNumber s = n ∧ n ≠ .nan := by
  cases x with
  | none => simp [JSVal.ofParam, castNumber] at h
  | some s =>
    simp only [JSVal.ofParam, castNumber] at h
    split at h
    · cases h
    · rename_i hs
      split at h
      · cases h
      · rename_i m hm
        injection h with h
        injection h with h
        subst h
        exact ⟨s, rfl, hs, rfl, fun hn => hm hn⟩

theorem crop_mirrored {env : Env} {now : Int} {b : CropBody} {c : Crop}
    (hv : validateCrop env now (cropDocOf b) = .ok c) :
    c.location.type = "Point" ∧ c.location.coordinates = [c.longitude, c.latitude]
      ∧ castNumber env (JSVal.ofParam b.longitude) = .ok (some c.longitude)
      ∧ castNumber env (JSVal.ofParam b.latitude) = .ok (some c.latitude) := by
  obtain ⟨_, _, _, hla, hlo, ht, hcs, _⟩ := validateCrop_ok hv
  have hla' := required_ok hla
  have hlo' := required_ok hlo
  have hc : castCoordinates env (cropDocOf b).location.coordinates
      = .ok [c.longitude, c.latitude] := castCoordinates_pair hlo' hla'
  rw [hc] at hcs
  injection hcs with hcs
  refine ⟨?_, hcs.symm, hlo', hla'⟩
  have ht' := required_ok ht
  simp [cropDocOf, enumPoint] at ht'
  exact ht'.symm

theorem castQueryDate_ok {d : JSDate} {t : Int} (h : castQueryDate d = .ok t) : d = some t := by
  cases d with
  | none => cases h
  | some t' => injection h with h; rw [h]

theorem findCrops_ok {env : Env} {s : Store} {q : CropQuery} {l : List Crop}
    (h : s.findCrops env q = .ok l) :
    ∃ cs bound lte gte center,
      castCoordinates env q.coordinates = .ok cs ∧ maxDistanceOf q.maxDistance = .ok bound
        ∧ q.startLte = some lte ∧ q.endGte = some gte ∧ pointOf cs = some center
        ∧ l = (s.crops.filter (cropMatches env q.name center bound lte gte)).insertionSort
            (nearestFirst env center) := by
  unfold Store.findCrops at h
  split at h
  · rename_i cs bound lte gte h1 h2 h3 h4
    split at h
    · cases h
    · rename_i center hc
      injection h with h
      exact ⟨cs, bound, lte, gte, center, h1, h2, castQueryDate_ok h3, castQueryDate_ok h4, hc,
        h.symm⟩
  all_goals cases h

theorem findCrops_of {env : Env} {s : Store} {q : CropQuery} {cs : List JSNum}
    {bound : Option ℚ} {lte gte : Int} {center : ℚ × ℚ}
    (h1 : castCoordinates env q.coordinates = .ok cs)
    (h2 : maxDistanceOf q.maxDistance = .ok bound)
    (h3 : q.startLte = some lte) (h4 : q.endGte = some gte) (h5 : pointOf cs = some center) :
    s.findCrops env q
      = .ok ((s.crops.filter (cropMatches env q.name center bound lte gte)).insertionSort
          (nearestFirst env center)) := by
  simp [Store.findCrops, h1, h2, h3, h4, h5, castQueryDate]

theorem mem_insertionSort_iff {α : Type} (r : α → α → Prop) [DecidableRel r] (l : List α)
    (a : α) : a ∈ l.insertionSort r ↔ a ∈ l :=
  (List.perm_insertionSort r l).mem_iff

/-- Every outcome of `createCrop`. -/
theorem createCrop_cases (env : Env) (now : Int) (s : Store) (b : CropBody) :
    (∃ msg, s.findCrops env (overlapQuery env b) = .error msg
        ∧ createCrop env now s b = { response := .error 400 msg, store := s, ops := [.cropFind] })
    ∨ (∃ l, s.findCrops env (overlapQuery env b) = .ok l ∧ l ≠ []
        ∧ createCrop env now s b =
          { response := .message 409 "Overlapping crop exists in the same area", store := s,
            ops := [.cropFind] })
    ∨ (∃ msg, s.findCrops env (overlapQuery env b) = .ok []
        ∧ saveCrop env now s (cropDocOf b) = .error msg
        ∧ createCrop env now s b =
          { response := .error 400 msg, store := s, ops := [.cropFind, .cropSave] })
    ∨ (∃ c, s.findCrops env (overlapQuery env b) = .ok []
        ∧ validateCrop env now (cropDocOf b) = .ok c
        ∧ createCrop env now s b =
          { response := .cropCreated 201 "Crop entry added successfully" c,
            store := { s with crops := s.crops ++ [c] }, ops := [.cropFind, .cropSave] }) := by
  unfold createCrop
  cases hf : s.findCrops env (overlapQuery env b) with
  | error msg => exact Or.inl ⟨msg, rfl, rfl⟩
  | ok l =>
    right
    cases l with
    | cons x xs => exact Or.inl ⟨x :: xs, rfl, by simp, by simp⟩
    | nil =>
      right
      cases hs : saveCrop env now s (cropDocOf b) with
      | error msg => exact Or.inl ⟨msg, rfl, rfl, by simp⟩
      | ok p =>
        obtain ⟨c, s'⟩ := p
        obtain ⟨hv, _, hs'⟩ := saveCrop_ok hs
        exact Or.inr ⟨c, rfl, hv, by simp [hs']⟩

/-! ## The overlap pre-check (C2) -/

theorem requestedPoint_some {env : Env} {b : CropBody} {center : ℚ × ℚ}
    (h : requestedPoint env b = some center) :
    ∃ cs, castCoordinates env (overlapQuery env b).coordinates = .ok cs
      ∧ pointOf cs = some center := by
  unfold requestedPoint at h
  split at h
  · rename_i cs hcs
    exact ⟨cs, hcs, h⟩
  · cases h

theorem maxDistanceOf_2000 : maxDistanceOf (.fin 2000) = .ok (some 2000) := by
  simp [maxDistanceOf]

theorem cropMatches_overlap_iff (env : Env) (b : CropBody) (center : ℚ × ℚ) (lte gte : Int)
    (c : Crop) :
    cropMatches env (some b.name) center (some 2000) lte gte c = true
      ↔ b.name.Accepts c.name
        ∧ (∃ p, c.location.point? = some p ∧ env.dist p center ≤ 2000)
        ∧ c.floweringStart ≤ lte ∧ gte ≤ c.floweringEnd := by
  have hn : nameMatches (some b.name) c = true ↔ b.name.Accepts c.name := by
    cases b.name <;> simp [nameMatches, NameField.Accepts]
  have hw : withinDistance env center (some 2000) c = true
      ↔ ∃ p, c.location.point? = some p ∧ env.dist p center ≤ 2000 := by
    unfold withinDistance
    cases c.location.point? <;> simp
  simp only [cropMatches, Bool.and_eq_true, decide_eq_true_eq, hn, hw]
  tauto

theorem overlap_found (env : Env) (s : Store) (b : CropBody) :
    (∃ c ∈ s.crops, OverlapsRequest env b c)
      ↔ ∃ l, s.findCrops env (overlapQuery env b) = .ok l ∧ l ≠ [] := by
  constructor
  · rintro ⟨c, hc, hname, ⟨p, center, hp, hcenter, hd⟩, ⟨e, st, he, hst, h1, h2⟩⟩
    obtain ⟨cs, hcs, hpt⟩ := requestedPoint_some hcenter
    refine ⟨_, findCrops_of hcs maxDistanceOf_2000 he hst hpt, ?_⟩
    intro hnil
    have hmem : c ∈ (s.crops.filter (cropMatches env (overlapQuery env b).name center
        (some 2000) e st)).insertionSort (nearestFirst env center) := by
      rw [mem_insertionSort_iff, List.mem_filter]
      exact ⟨hc, (cropMatches_overlap_iff env b center e st c).2 ⟨hname, ⟨p, hp, hd⟩, h1, h2⟩⟩
    rw [hnil] at hmem
    cases hmem
  · rintro ⟨l, hl, hne⟩
    obtain ⟨cs, bound, lte, gte, center, h1, h2, h3, h4, h5, rfl⟩ := findCrops_ok hl
    have hb : bound = some 2000 := by
      have := maxDistanceOf_2000
      simp only [overlapQuery] at h2
      rw [this] at h2
      injection h2 with h2
      exact h2.symm
    subst hb
    obtain ⟨c, hc⟩ := List.exists_mem_of_ne_nil _ hne
    rw [mem_insertionSort_iff, List.mem_filter] at hc
    obtain ⟨hmem, hm⟩ := hc
    obtain ⟨hname, ⟨p, hp, hd⟩, hs, he⟩ := (cropMatches_overlap_iff env b center lte gte c).1 hm
    refine ⟨c, hmem, hname, ⟨p, center, hp, ?_, hd⟩, ⟨lte, gte, h3, h4, hs, he⟩⟩
    unfold requestedPoint
    simp only [overlapQuery] at h1
    rw [h1]
    exact h5

theorem sameNameOverlap_iff {env : Env} {b : CropBody} (c : Crop)
    (hname : b.name = .absent ∨ ∃ n, b.name = .str n) :
    SameNameOverlap env b c ↔ OverlapsRequest env b c := by
  unfold SameNameOverlap OverlapsRequest
  rcases hname with h | ⟨n, h⟩
  · simp [h, NameField.Accepts]
  · simp only [h, NameField.Accepts, NameField.str.injEq]
    constructor
    · rintro ⟨h1, h2⟩
      exact ⟨h1.symm, h2⟩
    · rintro ⟨h1, h2⟩
      exact ⟨h1.symm, h2⟩

theorem createCrop_409_iff (env : Env) (now : Int) (s : Store) (b : CropBody) :
    ((createCrop env now s b).response = .message 409 "Overlapping crop exists in the same area"
        ∧ (createCrop env now s b).store = s)
      ↔ ∃ c ∈ s.crops, OverlapsRequest env b c := by
  rw [overlap_found]
  rcases createCrop_cases env now s b with ⟨msg, hf, hc⟩ | ⟨l, hf, hne, hc⟩ | ⟨msg, hf, _, hc⟩
    | ⟨c, hf, _, hc⟩
  · rw [hc, hf]
    simp
  · rw [hc, hf]
    simpa using hne
  · rw [hc, hf]
    simp
  · rw [hc, hf]
    simp

/-- C2 (amended). A create-crop request whose `name` is a string (or is
missing) is answered 409 with message 'Overlapping crop exists in the same
area', the store left unchanged, exactly when the store holds a crop of the
same name within 2000 metres of the requested point whose window satisfies
`existing.floweringStart <= new.floweringEnd` and
`existing.floweringEnd >= new.floweringStart`. With a crop flowering from
2024-03-01 to 2024-04-01 stored, a request for the same name and point with
window 2024-03-15 to 2024-03-20 is rejected with that 409, one whose window
starts on the stored crop's last day is rejected too, and one with window
2024-05-01 to 2024-06-01 is created (201). -/
theorem createCrop_conflict_iff :
    (∀ (env : Env) (now : Int) (s : Store) (b : CropBody),
      (b.name = .absent ∨ ∃ n, b.name = .str n) →
      (((createCrop env now s b).response
            = .message 409 "Overlapping crop exists in the same area"
          ∧ (createCrop env now s b).store = s)
        ↔ ∃ c ∈ s.crops, SameNameOverlap env b c))
    ∧ createCrop jsEnv 1 oneCrop (cropAt "Clover" "2024-03-15" "2024-03-20" (some "2"))
        = { response := .message 409 "Overlapping crop exists in the same area",
            store := oneCrop, ops := [.cropFind] }
    ∧ (createCrop jsEnv 1 oneCrop (cropAt "Clover" "2024-04-01" "2024-04-20" (some "2"))).response
        = .message 409 "Overlapping crop exists in the same area"
    ∧ (createCrop jsEnv 1 oneCrop
        (cropAt "Clover" "2024-05-01" "2024-06-01" (some "2"))).response.status = 201 := by
  refine ⟨?_, by decide!, by decide!, by decide!⟩
  intro env now s b hname
  rw [createCrop_409_iff]
  constructor
  · rintro ⟨c, hc, h⟩
    exact ⟨c, hc, (sameNameOverlap_iff c hname).2 h⟩
  · rintro ⟨c, hc, h⟩
    exact ⟨c, hc, (sameNameOverlap_iff c hname).1 h⟩

/-- C2 (amended), at a concrete request: the 409 answered to the Clover request
for 2024-03-15 to 2024-03-20 comes with a stored crop of the same name, within
2000 metres, whose window overlaps. -/
theorem createCrop_conflict_iff_witness :
    ∃ c ∈ oneCrop.crops,
      SameNameOverlap jsEnv (cropAt "Clover" "2024-03-15" "2024-03-20" (some "2")) c :=
  (createCrop_conflict_iff.1 jsEnv 1 oneCrop
    (cropAt "Clover" "2024-03-15" "2024-03-20" (some "2")) (Or.inr ⟨"Clover", rfl⟩)).1
    ⟨by decide!, by decide!⟩

/-- C2 as stated fails. The body parser runs with `extended: true`, so
`name[$ne]=Rose` arrives as the object `{ $ne: 'Rose' }` and reaches the
pre-check query as a condition: with only a Clover crop stored, the request is
answered 409 and the store is unchanged, although no stored crop has the
request's name. -/
theorem createCrop_conflict_iff_counterexample :
    (oneCrop.crops.map (fun c => c.name)) = ["Clover"]
    ∧ createCrop jsEnv 1 oneCrop
        { name := .ne "Rose", floweringStart := some "2024-03-15",
          floweringEnd := some "2024-03-20", latitude := some "10.0",
          longitude := some "20.0", recommendedHiveDensity := some "2" }
      = { response := .message 409 "Overlapping crop exists in the same area",
          store := oneCrop, ops := [.cropFind] }
    ∧ ¬ ∃ c ∈ oneCrop.crops,
        SameNameOverlap jsEnv
          { name := .ne "Rose", floweringStart := some "2024-03-15",
            floweringEnd := some "2024-03-20", latitude := some "10.0",
            longitude := some "20.0", recommendedHiveDensity := some "2" } c := by
  refine ⟨by decide!, by decide!, ?_⟩
  rintro ⟨c, _, hname, _⟩
  cases hname

/-! ## The crop invariant (C3) -/

theorem Conflict.symm {env : Env} (hsym : ∀ p q, env.dist p q = env.dist q p) {a b : Crop}
    (h : Conflict env a b) : Conflict env b a := by
  obtain ⟨hn, ⟨h1, h2⟩, p, q, hp, hq, hd⟩ := h
  exact ⟨hn.symm, ⟨h2, h1⟩, q, p, hq, hp, by rw [hsym]; exact hd⟩

theorem conflictFree_iff_pairwise {env : Env} (hsym : ∀ p q, env.dist p q = env.dist q p)
    (l : List Crop) : ConflictFree env l ↔ l.Pairwise (fun a b => ¬ Conflict env a b) := by
  rw [List.pairwise_iff_get]
  constructor
  · intro h i j hij
    exact h i j (ne_of_lt hij)
  · intro h i j hij hc
    rcases lt_or_gt_of_ne hij with hlt | hgt
    · exact h i j hlt hc
    · exact h j i hgt (hc.symm hsym)

theorem conflict_overlapsRequest {env : Env} {now : Int} {b : CropBody} {c e : Crop}
    (hv : validateCrop env now (cropDocOf b) = .ok c) (hc : Conflict env e c) :
    OverlapsRequest env b e := by
  obtain ⟨hn, ⟨h1, h2⟩, p, q, hp, hq, hd⟩ := hc
  obtain ⟨hname, hfs, hfe, _, _, _, _, _⟩ := validateCrop_ok hv
  obtain ⟨ht, hcs, hlo, hla⟩ := crop_mirrored hv
  refine ⟨?_, ⟨p, q, hp, ?_, hd⟩, ⟨c.floweringEnd, c.floweringStart, ?_, ?_, h1, h2⟩⟩
  · have hb : b.name = .str c.name := (requiredName_ok hname).1
    rw [hb]
    exact hn
  · unfold requestedPoint
    rw [castCoordinates_pair hlo hla]
    simpa [GeoPoint.point?, ht, hcs] using hq
  · exact (castDate_ok (required_ok hfe)).1
  · exact (castDate_ok (required_ok hfs)).1

theorem createCrop_pairwise (env : Env) (now : Int) (s : Store) (b : CropBody)
    (h : s.crops.Pairwise (fun a b => ¬ Conflict env a b)) :
    (createCrop env now s b).store.crops.Pairwise (fun a b => ¬ Conflict env a b) := by
  rcases createCrop_cases env now s b with ⟨msg, _, hc⟩ | ⟨l, _, _, hc⟩ | ⟨msg, _, _, hc⟩
    | ⟨c, hf, hv, hc⟩
  · rw [hc]; exact h
  · rw [hc]; exact h
  · rw [hc]; exact h
  · rw [hc]
    show (s.crops ++ [c]).Pairwise _
    rw [List.pairwise_append]
    refine ⟨h, List.pairwise_singleton _ _, ?_⟩
    intro e he x hx hcon
    rw [List.mem_singleton] at hx
    subst hx
    have hnone : ¬ ∃ l, s.findCrops env (overlapQuery env b) = .ok l ∧ l ≠ [] := by
      rw [hf]
      simp
    exact hnone ((overlap_found env s b).1 ⟨e, he, conflict_overlapsRequest hv hcon⟩)

theorem createHive_crops (env : Env) (now : Int) (s : Store) (b : HiveBody) :
    (createHive env now s b).store.crops = s.crops := by
  rcases createHive_cases env now s b with ⟨h, _, _, hc⟩ | ⟨msg, _, hc⟩ <;> rw [hc]

theorem listHives_store (env : Env) (s : Store) (q : ListQuery) :
    (listHives env s q).store = s := by
  unfold listHives
  simp only
  split
  · rfl
  · split <;> rfl

theorem nearbyCrops_store (env : Env) (now : Int) (s : Store) (q : NearbyQuery) :
    (nearbyCrops env now s q).store = s := by
  unfold nearbyCrops
  simp only
  split
  · rfl
  · split
    · rfl
    · split <;> rfl

theorem handle_pairwise (env : Env) (now : Int) (s : Store) (r : Request)
    (h : s.crops.Pairwise (fun a b => ¬ Conflict env a b)) :
    (handle env now s r).store.crops.Pairwise (fun a b => ¬ Conflict env a b) := by
  cases r with
  | createHive b => simpa [handle, createHive_crops] using h
  | listHives q => simpa [handle, listHives_store] using h
  | createCrop b => exact createCrop_pairwise env now s b h
  | nearbyCrops q => simpa [handle, nearbyCrops_store] using h

theorem run_pairwise (env : Env) (reqs : List (Int × Request)) (s : Store)
    (h : s.crops.Pairwise (fun a b => ¬ Conflict env a b)) :
    (run env s reqs).crops.Pairwise (fun a b => ¬ Conflict env a b) := by
  induction reqs generalizing s with
  | nil => exact h
  | cons x rest ih =>
    obtain ⟨now, r⟩ := x
    exact ih _ (handle_pairwise env now s r h)

/-- C3. Assuming the distance is symmetric: every create-crop step preserves
the invariant that no two distinct Crop records have the same name, overlapping
flowering windows (closed intervals) and locations within 2000 metres of each
other; hence, starting from an empty crop collection, the invariant holds after
any sequence of requests handled one after the other. -/
theorem crops_conflict_free (env : Env) (hsym : ∀ p q, env.dist p q = env.dist q p) :
    (∀ (now : Int) (s : Store) (b : CropBody),
        ConflictFree env s.crops → ConflictFree env (createCrop env now s b).store.crops)
    ∧ (∀ (s : Store) (reqs : List (Int × Request)),
        s.crops = [] → ConflictFree env (run env s reqs).crops) := by
  constructor
  · intro now s b h
    rw [conflictFree_iff_pairwise hsym] at h ⊢
    exact createCrop_pairwise env now s b h
  · intro s reqs h
    rw [conflictFree_iff_pairwise hsym]
    apply run_pairwise
    rw [h]
    exact List.Pairwise.nil

theorem gridDist_comm (p q : ℚ × ℚ) : gridDist p q = gridDist q p := by
  unfold gridDist
  rw [abs_sub_comm p.1 q.1, abs_sub_comm p.2 q.2]

/-- C3, at a concrete run: three create-crop requests for the same name and
point (the second overlapping the first) leave a conflict-free collection of
two records. -/
theorem crops_conflict_free_witness :
    (∀ p q, jsEnv.dist p q = jsEnv.dist q p)
    ∧ (run jsEnv Store.empty
        [(0, .createCrop (cropAt "Clover" "2024-03-01" "2024-04-01" (some "2"))),
         (1, .createCrop (cropAt "Clover" "2024-03-15" "2024-03-20" (some "2"))),
         (2, .createCrop (cropAt "Clover" "2024-05-01" "2024-06-01" (some "2")))]).crops.length = 2
    ∧ ConflictFree jsEnv (run jsEnv Store.empty
        [(0, .createCrop (cropAt "Clover" "2024-03-01" "2024-04-01" (some "2"))),
         (1, .createCrop (cropAt "Clover" "2024-03-15" "2024-03-20" (some "2"))),
         (2, .createCrop (cropAt "Clover" "2024-05-01" "2024-06-01" (some "2")))]).crops :=
  ⟨gridDist_comm, by decide!, (crops_conflict_free jsEnv gridDist_comm).2 Store.empty _ rfl⟩

/-! ## Nearby flowering crops (C5) -/

theorem cropMatches_nearby (env : Env) (center : ℚ × ℚ) (metres : ℚ) (d : Int) :
    cropMatches env none center (some metres) d d = floweringNear env center metres d := by
  funext c
  unfold cropMatches floweringNear withinDistance nameMatches
  cases c.location.point? <;> simp [Bool.and_assoc]

theorem pointOf_valid {la lo : ℚ} (h : isValidCoord (.fin la) (.fin lo) = true) :
    pointOf [.fin lo, .fin la] = some (lo, la) := by
  simp [isValidCoord, JSNum.isNaN, JSNum.ge, JSNum.le] at h
  simp [pointOf, h]

theorem nearbyCrops_valid (env : Env) (now : Int) (s : Store) (q : NearbyQuery)
    (la lo r : ℚ) (d : Int)
    (hlat : env.parseFloatOf (JSVal.ofParam q.latitude) = .fin la)
    (hlng : env.parseFloatOf (JSVal.ofParam q.longitude) = .fin lo)
    (hvalid : isValidCoord (.fin la) (.fin lo) = true)
    (hr : env.parseFloatOf (radiusOf q) = .fin r) (hr0 : 0 ≤ r)
    (hd : searchDateOf env now q = some d) :
    s.findCrops env (nearbyQuery env now q)
      = .ok ((s.crops.filter (floweringNear env (lo, la) (r * 1000) d)).insertionSort
          (nearestFirst env (lo, la))) := by
  have hc : castCoordinates env (nearbyQuery env now q).coordinates = .ok [.fin lo, .fin la] := by
    simp [nearbyQuery, hlat, hlng, castCoordinates, castNumber]
  have hm : maxDistanceOf (nearbyQuery env now q).maxDistance = .ok (some (r * 1000)) := by
    have : (0 : ℚ) ≤ r * 1000 := by positivity
    simp [nearbyQuery, hr, JSNum.mul, maxDistanceOf, this]
  have h3 : (nearbyQuery env now q).startLte = some d := by simp [nearbyQuery, hd]
  have h4 : (nearbyQuery env now q).endGte = some d := by simp [nearbyQuery, hd]
  rw [findCrops_of hc hm h3 h4 (pointOf_valid hvalid)]
  simp [nearbyQuery, cropMatches_nearby]

/-- C5 (amended). For a nearby-crops request whose `latitude` and `longitude`
parse to valid coordinates, whose `radius` parses to a number `r >= 0` of
kilometres (`r = 100` when it is omitted) and whose `date` is given and parses
to `d`, the crops returned are exactly the stored crops located within
`r * 1000` metres of the query point whose window satisfies
`floweringStart <= d <= floweringEnd` (the same records with the same
multiplicities). When there is none the response is 200 with message 'No
flowering crops found nearby.' and `crops = []`; otherwise it is 200 with
`crops` alone. The store is unchanged. -/
theorem nearbyCrops_returns_flowering_near (env : Env) (now : Int) (s : Store) (q : NearbyQuery)
    (slat slng sdate : String) (la lo r : ℚ) (d : Int)
    (hlat : q.latitude = some slat) (hla : env.parseFloat slat = .fin la)
    (hlng : q.longitude = some slng) (hlo : env.parseFloat slng = .fin lo)
    (hvalid : isValidCoord (.fin la) (.fin lo) = true)
    (hr : (q.radius = none ∧ r = 100) ∨ ∃ sr, q.radius = some sr ∧ env.parseFloat sr = .fin r)
    (hr0 : 0 ≤ r)
    (hdate : q.date = some sdate) (hne : sdate ≠ "") (hd : env.dateParse sdate = some d) :
    NearbyContract env now s q (lo, la) r d ∧ (nearbyCrops env now s q).store = s := by
  have hlat' : env.parseFloatOf (JSVal.ofParam q.latitude) = .fin la := by
    rw [hlat]; exact hla
  have hlng' : env.parseFloatOf (JSVal.ofParam q.longitude) = .fin lo := by
    rw [hlng]; exact hlo
  have hr' : env.parseFloatOf (radiusOf q) = .fin r := by
    rcases hr with ⟨h1, h2⟩ | ⟨sr, h1, h2⟩
    · simp [radiusOf, h1, h2, Env.parseFloatOf]
    · simp [radiusOf, h1, Env.parseFloatOf, h2]
  have hd' : searchDateOf env now q = some d := by
    simp [searchDateOf, hdate, JSVal.ofParam, JSVal.truthy, hne, Env.dateOf, hd]
  have hf := nearbyCrops_valid env now s q la lo r d hlat' hlng' hvalid hr' hr0 hd'
  refine ⟨⟨(s.crops.filter (floweringNear env (lo, la) (r * 1000) d)).insertionSort
    (nearestFirst env (lo, la)), List.perm_insertionSort _ _, ?_, ?_⟩,
    nearbyCrops_store env now s q⟩
  · intro hnil
    unfold nearbyCrops
    simp only [hlat', hlng', hvalid, hf, Bool.not_true, Bool.false_eq_true, if_false]
    rw [if_pos (by rw [hnil]; rfl)]
  · intro hnn
    unfold nearbyCrops
    simp only [hlat', hlng', hvalid, hf, Bool.not_true, Bool.false_eq_true, if_false]
    rw [if_neg (by rwa [List.length_eq_zero])]

/-- C5 (amended), at concrete requests over the store of one crop flowering
from 2024-03-01 to 2024-04-01 at latitude 10.0, longitude 20.0. A query a tenth
of a degree of longitude away, for 2024-03-15, returns the crop with
`radius=20` and with the radius omitted, and returns the message with an empty
list with `radius=5`. A query at the crop's own point returns it for 2024-03-15
and returns the message for 2024-05-01. -/
theorem nearbyCrops_returns_flowering_near_witness :
    NearbyContract jsEnv 0 oneCrop
        { latitude := some "10.0", longitude := some "20.1", radius := some "20",
          date := some "2024-03-15" } (201 / 10, 10) 20 1710460800000
    ∧ (nearbyCrops jsEnv 0 oneCrop
        { latitude := some "10.0", longitude := some "20.1", radius := some "20",
          date := some "2024-03-15" }).response = .cropList 200 none oneCrop.crops
    ∧ oneCrop.crops.length = 1
    ∧ NearbyContract jsEnv 0 oneCrop
        { latitude := some "10.0", longitude := some "20.1", radius := some "5",
          date := some "2024-03-15" } (201 / 10, 10) 5 1710460800000
    ∧ (nearbyCrops jsEnv 0 oneCrop
        { latitude := some "10.0", longitude := some "20.1", radius := some "5",
          date := some "2024-03-15" }).response
        = .cropList 200 (some "No flowering crops found nearby.") []
    ∧ (nearbyCrops jsEnv 0 oneCrop
        { latitude := some "10.0", longitude := some "20.1", radius := none,
          date := some "2024-03-15" }).response = .cropList 200 none oneCrop.crops
    ∧ (nearbyCrops jsEnv 0 oneCrop
        { latitude := some "10.0", longitude := some "20.0", radius := none,
          date := some "2024-03-15" }).response = .cropList 200 none oneCrop.crops
    ∧ (nearbyCrops jsEnv 0 oneCrop
        { latitude := some "10.0", longitude := some "20.0", radius := none,
          date := some "2024-05-01" }).response
        = .cropList 200 (some "No flowering crops found nearby.") [] :=
  ⟨(nearbyCrops_returns_flowering_near jsEnv 0 oneCrop _ "10.0" "20.1" "2024-03-15" 10
      (201 / 10) 20 1710460800000 rfl (by decide!) rfl (by decide!) (by decide!)
      (Or.inr ⟨"20", rfl, by decide!⟩) (by norm_num) rfl (by decide) (by decide!)).1,
    by decide!, by decide!,
    (nearbyCrops_returns_flowering_near jsEnv 0 oneCrop _ "10.0" "20.1" "2024-03-15" 10
      (201 / 10) 5 1710460800000 rfl (by decide!) rfl (by decide!) (by decide!)
      (Or.inr ⟨"5", rfl, by decide!⟩) (by norm_num) rfl (by decide) (by decide!)).1,
    by decide!, by decide!, by decide!, by decide!⟩

/-- C5 as stated fails for a negative radius. With `radius=-1` the crops within
`-1 * 1000` metres are none, so the stated response is the message with an
empty list; the handler passes `$maxDistance: -1000` to the store, the store
refuses the query and the handler answers 500. -/
theorem nearbyCrops_returns_flowering_near_counterexample :
    jsEnv.parseFloat "-1" = .fin (-1)
    ∧ (nearbyCrops jsEnv 0 oneCrop
        { latitude := some "10.0", longitude := some "20.0", radius := some "-1",
          date := some "2024-03-15" }).response
        = .error 500 "$maxDistance must be non-negative"
    ∧ ¬ NearbyContract jsEnv 0 oneCrop
        { latitude := some "10.0", longitude := some "20.0", radius := some "-1",
          date := some "2024-03-15" } (20, 10) (-1) 1710460800000 := by
  have hresp : (nearbyCrops jsEnv 0 oneCrop
        { latitude := some "10.0", longitude := some "20.0", radius := some "-1",
          date := some "2024-03-15" }).response
        = .error 500 "$maxDistance must be non-negative" := by decide!
  refine ⟨by decide!, hresp, ?_⟩
  rintro ⟨crops, hperm, hempty, _⟩
  have hfilter : oneCrop.crops.filter (floweringNear jsEnv (20, 10) (-1 * 1000) 1710460800000)
      = [] := by decide!
  rw [hfilter] at hperm
  have hnil := hempty hperm.eq_nil
  rw [hresp] at hnil
  cases hnil

/-! ## Stores reached by a run of requests -/

theorem createCrop_hives (env : Env) (now : Int) (s : Store) (b : CropBody) :
    (createCrop env now s b).store.hives = s.hives := by
  rcases createCrop_cases env now s b with ⟨msg, _, hc⟩ | ⟨l, _, _, hc⟩ | ⟨msg, _, _, hc⟩
    | ⟨c, _, _, hc⟩ <;> rw [hc]

/-- A property of hive records that every created hive has holds of all hives
after one request. -/
theorem handle_hives_all (env : Env) (P : Hive → Prop)
    (hP : ∀ now (b : HiveBody) h, validateHive env now (hiveDocOf b) = .ok h → P h)
    (now : Int) (s : Store) (r : Request) (hs : ∀ h ∈ s.hives, P h) :
    ∀ h ∈ (handle env now s r).store.hives, P h := by
  cases r with
  | createHive b =>
    rcases createHive_cases env now s b with ⟨h, hv, _, hc⟩ | ⟨msg, _, hc⟩
    · simp only [handle, hc]
      intro x hx
      rcases List.mem_append.1 hx with hx | hx
      · exact hs x hx
      · rw [List.mem_singleton] at hx
        subst hx
        exact hP now b _ hv
    · simpa only [handle, hc] using hs
  | listHives q => simpa only [handle, listHives_store] using hs
  | createCrop b => simpa only [handle, createCrop_hives] using hs
  | nearbyCrops q => simpa only [handle, nearbyCrops_store] using hs

/-- A property of crop records that every created crop has holds of all crops
after one request. -/
theorem handle_crops_all (env : Env) (P : Crop → Prop)
    (hP : ∀ now (b : CropBody) c, validateCrop env now (cropDocOf b) = .ok c → P c)
    (now : Int) (s : Store) (r : Request) (hs : ∀ c ∈ s.crops, P c) :
    ∀ c ∈ (handle env now s r).store.crops, P c := by
  cases r with
  | createCrop b =>
    rcases createCrop_cases env now s b with ⟨msg, _, hc⟩ | ⟨l, _, _, hc⟩ | ⟨msg, _, _, hc⟩
      | ⟨c, _, hv, hc⟩
    · simpa only [handle, hc] using hs
    · simpa only [handle, hc] using hs
    · simpa only [handle, hc] using hs
    · simp only [handle, hc]
      intro x hx
      rcases List.mem_append.1 hx with hx | hx
      · exact hs x hx
      · rw [List.mem_singleton] at hx
        subst hx
        exact hP now b _ hv
  | listHives q => simpa only [handle, listHives_store] using hs
  | createHive b => simpa only [handle, createHive_crops] using hs
  | nearbyCrops q => simpa only [handle, nearbyCrops_store] using hs

theorem run_hives_all (env : Env) (P : Hive → Prop)
    (hP : ∀ now (b : HiveBody) h, validateHive env now (hiveDocOf b) = .ok h → P h)
    (reqs : List (Int × Request)) (s : Store) (hs : ∀ h ∈ s.hives, P h) :
    ∀ h ∈ (run env s reqs).hives, P h := by
  induction reqs generalizing s with
  | nil => exact hs
  | cons x rest ih => exact ih _ (handle_hives_all env P hP x.1 s x.2 hs)

theorem run_crops_all (env : Env) (P : Crop → Prop)
    (hP : ∀ now (b : CropBody) c, validateCrop env now (cropDocOf b) = .ok c → P c)
    (reqs : List (Int × Request)) (s : Store) (hs : ∀ c ∈ s.crops, P c) :
    ∀ c ∈ (run env s reqs).crops, P c := by
  induction reqs generalizing s with
  | nil => exact hs
  | cons x rest ih => exact ih _ (handle_crops_all env P hP x.1 s x.2 hs)

/-- Hives are never removed: a stored hive is still stored after any run. -/
theorem run_hives_mono (env : Env) (reqs : List (Int × Request)) (s : Store) (h : Hive)
    (hh : h ∈ s.hives) : h ∈ (run env s reqs).hives := by
  induction reqs generalizing s with
  | nil => exact hh
  | cons x rest ih =>
    apply ih
    obtain ⟨now, r⟩ := x
    cases r with
    | createHive b =>
      rcases createHive_cases env now s b with ⟨h', _, _, hc⟩ | ⟨msg, _, hc⟩
      · simp only [handle, hc]
        exact List.mem_append_left _ hh
      · simpa only [handle, hc] using hh
    | listHives q => simpa only [handle, listHives_store] using hh
    | createCrop b => simpa only [handle, createCrop_hives] using hh
    | nearbyCrops q => simpa only [handle, nearbyCrops_store] using hh

/-! ## The mirrored location (C10) -/

/-- C10. A successful create hive, and a successful create crop, persists a
record whose `location.type` is 'Point' and whose `location.coordinates` are
`[longitude, latitude]`, longitude first, both being the Number cast of the
same request's `longitude` and `latitude`; hence after any sequence of requests
from the empty store every record of either collection has a location that
mirrors its own `longitude` and `latitude` fields. -/
theorem location_mirrors_coordinates :
    (∀ (env : Env) (now : Int) (s : Store) (b : HiveBody) (st : Nat) (m : String) (h : Hive),
        (createHive env now s b).response = .hiveCreated st m h →
          h ∈ (createHive env now s b).store.hives
            ∧ Mirrored h.location h.longitude h.latitude
            ∧ castNumber env (JSVal.ofParam b.longitude) = .ok (some h.longitude)
            ∧ castNumber env (JSVal.ofParam b.latitude) = .ok (some h.latitude))
    ∧ (∀ (env : Env) (now : Int) (s : Store) (b : CropBody) (st : Nat) (m : String) (c : Crop),
        (createCrop env now s b).response = .cropCreated st m c →
          c ∈ (createCrop env now s b).store.crops
            ∧ Mirrored c.location c.longitude c.latitude
            ∧ castNumber env (JSVal.ofParam b.longitude) = .ok (some c.longitude)
            ∧ castNumber env (JSVal.ofParam b.latitude) = .ok (some c.latitude))
    ∧ (∀ (env : Env) (reqs : List (Int × Request)),
        (∀ h ∈ (run env Store.empty reqs).hives, Mirrored h.location h.longitude h.latitude)
          ∧ ∀ c ∈ (run env Store.empty reqs).crops,
              Mirrored c.location c.longitude c.latitude) := by
  refine ⟨?_, ?_, ?_⟩
  · intro env now s b st m h hr
    rcases createHive_cases env now s b with ⟨h', hv, _, hc⟩ | ⟨msg, _, hc⟩
    · rw [hc] at hr ⊢
      injection hr with _ _ hh
      subst hh
      obtain ⟨h1, h2, h3, h4⟩ := hive_mirrored hv
      exact ⟨by simp, ⟨h1, h2⟩, h3, h4⟩
    · rw [hc] at hr
      cases hr
  · intro env now s b st m c hr
    rcases createCrop_cases env now s b with ⟨msg, _, hc⟩ | ⟨l, _, _, hc⟩ | ⟨msg, _, _, hc⟩
      | ⟨c', _, hv, hc⟩
    · rw [hc] at hr; cases hr
    · rw [hc] at hr; cases hr
    · rw [hc] at hr; cases hr
    · rw [hc] at hr ⊢
      injection hr with _ _ hh
      subst hh
      obtain ⟨h1, h2, h3, h4⟩ := crop_mirrored hv
      exact ⟨by simp, ⟨h1, h2⟩, h3, h4⟩
  · intro env reqs
    constructor
    · refine run_hives_all env (fun h => Mirrored h.location h.longitude h.latitude) ?_ reqs
        Store.empty ?_
      · intro now b h hv
        exact ⟨(hive_mirrored hv).1, (hive_mirrored hv).2.1⟩
      · intro h hh
        cases hh
    · refine run_crops_all env (fun c => Mirrored c.location c.longitude c.latitude) ?_ reqs
        Store.empty ?_
      · intro now b c hv
        exact ⟨(crop_mirrored hv).1, (crop_mirrored hv).2.1⟩
      · intro c hc
        cases hc

/-- C10, at a concrete request: the hive created from latitude 10 and
longitude 20 is persisted with `location.coordinates = [20, 10]`. -/
theorem location_mirrors_coordinates_witness :
    ∃ h : Hive,
      (createHive jsEnv 0 Store.empty (hiveAt "H1" "2024-01-01")).response
          = .hiveCreated 201 "Hive added successfully" h
        ∧ h.location.coordinates = [.fin 20, .fin 10]
        ∧ h ∈ (createHive jsEnv 0 Store.empty (hiveAt "H1" "2024-01-01")).store.hives
        ∧ Mirrored h.location h.longitude h.latitude :=
  ⟨{ hiveId := "H1", datePlaced := 1704067200000, latitude := .fin 10, longitude := .fin 20,
     location := { type := "Point", coordinates := [.fin 20, .fin 10] }, numColonies := none,
     createdAt := 0, updatedAt := 0 },
   by decide!, rfl,
   (location_mirrors_coordinates.1 jsEnv 0 Store.empty (hiveAt "H1" "2024-01-01") 201
      "Hive added successfully" _ (by decide!)).1,
   (location_mirrors_coordinates.1 jsEnv 0 Store.empty (hiveAt "H1" "2024-01-01") 201
      "Hive added successfully" _ (by decide!)).2.1⟩

/-! ## Uniqueness of `hiveId` (C7) -/

theorem createHive_duplicate (env : Env) (now : Int) (s : Store) (b : HiveBody) (x : Hive)
    (hx : x ∈ s.hives) (hid : b.hiveId = some x.hiveId) :
    ∃ msg, saveHive env now s (hiveDocOf b) = .error msg
      ∧ createHive env now s b = { response := .error 400 msg, store := s, ops := [.hiveSave] }
      ∧ ∀ h, validateHive env now (hiveDocOf b) = .ok h →
          msg = "E11000 duplicate key error collection: beehiveDB.hives index: hiveId_1 dup key: "
            ++ x.hiveId := by
  rcases createHive_cases env now s b with ⟨h, hv, hd, _⟩ | ⟨msg, hs, hc⟩
  · exfalso
    have h1 := (requiredString_ok (validateHive_ok hv).1).1
    have h2 : (hiveDocOf b).hiveId = b.hiveId := rfl
    rw [h2, hid] at h1
    injection h1 with h1
    exact hd x hx h1
  · refine ⟨msg, hs, hc, ?_⟩
    intro h hv
    have h1 := (requiredString_ok (validateHive_ok hv).1).1
    have h2 : (hiveDocOf b).hiveId = b.hiveId := rfl
    rw [h2, hid] at h1
    injection h1 with h1
    have hany : s.hives.any (fun y => decide (y.hiveId = h.hiveId)) = true := by
      simp only [List.any_eq_true, decide_eq_true_eq]
      exact ⟨x, hx, h1⟩
    simp only [saveHive, hv, Store.insertHive, hany, if_true] at hs
    injection hs with hs
    rw [← hs, h1]

theorem handle_hiveIds_nodup (env : Env) (now : Int) (s : Store) (r : Request)
    (h : (s.hives.map (fun x => x.hiveId)).Nodup) :
    ((handle env now s r).store.hives.map (fun x => x.hiveId)).Nodup := by
  cases r with
  | createHive b =>
    rcases createHive_cases env now s b with ⟨h', _, hd, hc⟩ | ⟨msg, _, hc⟩
    · simp only [handle, hc, List.map_append, List.map_cons, List.map_nil]
      rw [List.nodup_append]
      refine ⟨h, List.nodup_singleton _, ?_⟩
      intro a ha ha'
      rw [List.mem_singleton] at ha'
      obtain ⟨x, hx, hxa⟩ := List.mem_map.1 ha
      exact hd x hx (hxa.trans ha')
    · simpa only [handle, hc] using h
  | listHives q => simpa only [handle, listHives_store] using h
  | createCrop b => simpa only [handle, createCrop_hives] using h
  | nearbyCrops q => simpa only [handle, nearbyCrops_store] using h

theorem run_hiveIds_nodup (env : Env) (reqs : List (Int × Request)) (s : Store)
    (h : (s.hives.map (fun x => x.hiveId)).Nodup) :
    ((run env s reqs).hives.map (fun x => x.hiveId)).Nodup := by
  induction reqs generalizing s with
  | nil => exact h
  | cons x rest ih => exact ih _ (handle_hiveIds_nodup env x.1 s x.2 h)

/-- C7. When a create-hive request succeeds, any later create-hive request
carrying the same `hiveId` (directly after it, or after any further requests)
is answered 400 with the error message of the failed `save` and leaves the
store unchanged; when that request is otherwise valid the message is the
duplicate-key error of the unique index. Consequently the hives of the store
have pairwise distinct `hiveId` after any sequence of requests from the empty
store, and distinctness is preserved by any sequence of requests. -/
theorem duplicate_hiveId_rejected :
    (∀ (env : Env) (now1 now2 : Int) (s : Store) (b1 b2 : HiveBody)
        (reqs : List (Int × Request)) (st : Nat) (m : String) (h : Hive),
        (createHive env now1 s b1).response = .hiveCreated st m h →
        b2.hiveId = b1.hiveId →
        ∃ msg,
          saveHive env now2 (run env (createHive env now1 s b1).store reqs) (hiveDocOf b2)
              = .error msg
            ∧ createHive env now2 (run env (createHive env now1 s b1).store reqs) b2
              = { response := .error 400 msg,
                  store := run env (createHive env now1 s b1).store reqs, ops := [.hiveSave] }
            ∧ ∀ h2, validateHive env now2 (hiveDocOf b2) = .ok h2 →
                msg = "E11000 duplicate key error collection: beehiveDB.hives index: hiveId_1 dup key: "
                  ++ h.hiveId)
    ∧ (∀ (env : Env) (s : Store) (reqs : List (Int × Request)),
        (s.hives.map (fun x => x.hiveId)).Nodup →
          ((run env s reqs).hives.map (fun x => x.hiveId)).Nodup)
    ∧ (∀ (env : Env) (reqs : List (Int × Request)),
        ((run env Store.empty reqs).hives.map (fun x => x.hiveId)).Nodup) := by
  refine ⟨?_, fun env s reqs h => run_hiveIds_nodup env reqs s h, ?_⟩
  · intro env now1 now2 s b1 b2 reqs st m h hr hid
    rcases createHive_cases env now1 s b1 with ⟨h', hv, _, hc⟩ | ⟨msg, _, hc⟩
    · rw [hc] at hr
      injection hr with _ _ hh
      subst hh
      rw [hc]
      have hmem : h' ∈ (run env { s with hives := s.hives ++ [h'] } reqs).hives :=
        run_hives_mono env reqs _ h' (by simp)
      have h1 := (requiredString_ok (validateHive_ok hv).1).1
      have h2 : (hiveDocOf b1).hiveId = b1.hiveId := rfl
      rw [h2] at h1
      exact createHive_duplicate env now2 _ b2 h' hmem (hid.trans h1)
    · rw [hc] at hr
      cases hr
  · intro env reqs
    apply run_hiveIds_nodup
    exact List.nodup_nil

/-- C7, at a concrete pair of requests: after hive `H1` is created, a second
request for `H1` (with another date) is answered 400 with the duplicate-key
error and the store still holds one hive. -/
theorem duplicate_hiveId_rejected_witness :
    createHive jsEnv 1 (createHive jsEnv 0 Store.empty (hiveAt "H1" "2024-01-01")).store
        (hiveAt "H1" "2024-02-02")
      = { response := .error 400
            "E11000 duplicate key error collection: beehiveDB.hives index: hiveId_1 dup key: H1",
          store := (createHive jsEnv 0 Store.empty (hiveAt "H1" "2024-01-01")).store,
          ops := [.hiveSave] }
    ∧ ∃ msg,
        saveHive jsEnv 1 (run jsEnv (createHive jsEnv 0 Store.empty
            (hiveAt "H1" "2024-01-01")).store []) (hiveDocOf (hiveAt "H1" "2024-02-02"))
            = .error msg
          ∧ createHive jsEnv 1 (run jsEnv (createHive jsEnv 0 Store.empty
              (hiveAt "H1" "2024-01-01")).store []) (hiveAt "H1" "2024-02-02")
            = { response := .error 400 msg,
                store := run jsEnv (createHive jsEnv 0 Store.empty
                  (hiveAt "H1" "2024-01-01")).store [], ops := [.hiveSave] } :=
  ⟨by decide!,
    (duplicate_hiveId_rejected.1 jsEnv 0 1 Store.empty (hiveAt "H1" "2024-01-01")
      (hiveAt "H1" "2024-02-02") [] 201 "Hive added successfully"
      { hiveId := "H1", datePlaced := 1704067200000, latitude := .fin 10, longitude := .fin 20,
        location := { type := "Point", coordinates := [.fin 20, .fin 10] }, numColonies := none,
        createdAt := 0, updatedAt := 0 } (by decide!) rfl).imp fun _ h => ⟨h.1, h.2.1⟩⟩

/-! ## Create then list (C6) -/

theorem count_take_sorted (l : List Hive) (h : Hive) (n : ℕ) (hnot : h ∉ l)
    (hfew : (l.filter (fun x => decide (h.datePlaced ≤ x.datePlaced))).length < n) :
    (((l ++ [h]).insertionSort latestFirst).take n).count h = 1 := by
  have hperm := List.perm_insertionSort latestFirst (l ++ [h])
  have hsorted := List.sorted_insertionSort latestFirst (l ++ [h])
  generalize (l ++ [h]).insertionSort latestFirst = l' at hperm hsorted
  have hcount : l'.count h = 1 := by
    rw [hperm.count_eq, List.count_append, List.count_eq_zero_of_not_mem hnot]
    simp
  have hsplit : (l'.take n).count h + (l'.drop n).count h = 1 := by
    rw [← List.count_append, List.take_append_drop, hcount]
  suffices hd : (l'.drop n).count h = 0 by omega
  rw [List.count_eq_zero]
  intro hmem
  have hpw : (l'.take n ++ l'.drop n).Pairwise latestFirst := by
    rw [List.take_append_drop]
    exact hsorted
  rw [List.pairwise_append] at hpw
  have hall : ∀ a ∈ l'.take n, (fun x : Hive => decide (h.datePlaced ≤ x.datePlaced)) a = true := by
    intro a ha
    simpa [latestFirst] using hpw.2.2 a ha h hmem
  have hlen : n < l'.length := by
    have := List.length_pos_of_mem hmem
    rw [List.length_drop] at this
    omega
  have h1 : (l'.take n).countP (fun x => decide (h.datePlaced ≤ x.datePlaced)) = n := by
    rw [List.countP_eq_length.2 hall, List.length_take]
    omega
  have h2 : 0 < (l'.drop n).countP (fun x => decide (h.datePlaced ≤ x.datePlaced)) := by
    rw [List.countP_pos_iff]
    exact ⟨h, hmem, by simp⟩
  have h3 : l'.countP (fun x => decide (h.datePlaced ≤ x.datePlaced))
      = (l.filter (fun x => decide (h.datePlaced ≤ x.datePlaced))).length + 1 := by
    rw [hperm.countP_eq, List.countP_append, List.countP_eq_length_filter]
    simp
  have h4 : l'.countP (fun x => decide (h.datePlaced ≤ x.datePlaced))
      = (l'.take n).countP (fun x => decide (h.datePlaced ≤ x.datePlaced))
        + (l'.drop n).countP (fun x => decide (h.datePlaced ≤ x.datePlaced)) := by
    rw [← List.countP_append, List.take_append_drop]
  omega

theorem listHives_listAll (env : Env) (s : Store) :
    listHives env s listAll =
      { response := .hiveList 200 s.hives.length (env.parseIntOf (pageOf listAll))
          (.fin ((10 : ℕ) : ℚ)) ((s.hives.insertionSort latestFirst).take 10),
        store := s, ops := [.hiveFind, .hiveCount] } := by
  have h := listHives_page env s listAll 1 10 rfl rfl (by simp [pageOf, listAll, Env.numberOf])
    (by simp [limitOf, listAll, Env.numberOf])
    (by simp [limitOf, listAll, Env.parseIntOf, JSNum.trunc]) (by decide) (by decide)
  simpa using h

/-- C6 (amended). After a successful create hive, the unfiltered default
listing (page 1, limit 10, latest `datePlaced` first) answers 200 with a `data`
array that contains the created hive exactly once, provided at most nine of the
hives stored before it have a `datePlaced` on or after its own. -/
theorem created_hive_listed_once (env : Env) (now : Int) (s : Store) (b : HiveBody)
    (st : Nat) (m : String) (h : Hive)
    (hc : (createHive env now s b).response = .hiveCreated st m h)
    (hfew : (s.hives.filter (fun x => decide (h.datePlaced ≤ x.datePlaced))).length ≤ 9) :
    ListedOnce env (createHive env now s b).store h := by
  rcases createHive_cases env now s b with ⟨h', _, hd, hcr⟩ | ⟨msg, _, hcr⟩
  · rw [hcr] at hc ⊢
    injection hc with _ _ hh
    subst hh
    have hnot : h' ∉ s.hives := fun hmem => hd h' hmem rfl
    unfold ListedOnce
    rw [listHives_listAll]
    exact ⟨rfl, count_take_sorted s.hives h' 10 hnot (by omega)⟩
  · rw [hcr] at hc
    cases hc

/-- C6 (amended), at a concrete request: a hive dated before the five stored
ones is created and then listed exactly once. -/
theorem created_hive_listed_once_witness :
    ListedOnce jsEnv (createHive jsEnv 0 fiveHives (hiveAt "H0" "2023-12-01")).store
      { hiveId := "H0", datePlaced := 1701388800000, latitude := .fin 10, longitude := .fin 20,
        location := { type := "Point", coordinates := [.fin 20, .fin 10] }, numColonies := none,
        createdAt := 0, updatedAt := 0 } :=
  created_hive_listed_once jsEnv 0 fiveHives (hiveAt "H0" "2023-12-01") 201
    "Hive added successfully" _ (by decide!) (by decide!)

/-- C6 as stated fails. With ten hives placed in February 2024 already stored,
creating hive `H0` placed on 2024-01-01 succeeds (201), yet the default listing
returns the ten later hives and not `H0`: page 1 holds the ten latest records
only. -/
theorem created_hive_listed_once_counterexample :
    (createHive jsEnv 0 tenHives (hiveAt "H0" "2024-01-01")).response
      = .hiveCreated 201 "Hive added successfully"
          { hiveId := "H0", datePlaced := 1704067200000, latitude := .fin 10,
            longitude := .fin 20,
            location := { type := "Point", coordinates := [.fin 20, .fin 10] },
            numColonies := none, createdAt := 0, updatedAt := 0 }
    ∧ (listHives jsEnv (createHive jsEnv 0 tenHives (hiveAt "H0" "2024-01-01")).store
        listAll).response.status = 200
    ∧ (listHives jsEnv (createHive jsEnv 0 tenHives (hiveAt "H0" "2024-01-01")).store
        listAll).response.data.length = 10
    ∧ (listHives jsEnv (createHive jsEnv 0 tenHives (hiveAt "H0" "2024-01-01")).store
        listAll).response.data.count
          { hiveId := "H0", datePlaced := 1704067200000, latitude := .fin 10,
            longitude := .fin 20,
            location := { type := "Point", coordinates := [.fin 20, .fin 10] },
            numColonies := none, createdAt := 0, updatedAt := 0 } = 0
    ∧ ¬ ListedOnce jsEnv (createHive jsEnv 0 tenHives (hiveAt "H0" "2024-01-01")).store
          { hiveId := "H0", datePlaced := 1704067200000, latitude := .fin 10,
            longitude := .fin 20,
            location := { type := "Point", coordinates := [.fin 20, .fin 10] },
            numColonies := none, createdAt := 0, updatedAt := 0 } := by
  refine ⟨by decide!, by decide!, by decide!, by decide!, ?_⟩
  unfold ListedOnce
  decide!

/-! ## Repeated reads (C8) -/

/-- A sorted list is determined by its elements when the order is antisymmetric
on them. -/
theorem sorted_perm_unique {α : Type} {r : α → α → Prop} :
    ∀ {l₁ l₂ : List α}, l₁.Perm l₂ → l₁.Sorted r → l₂.Sorted r →
      (∀ a ∈ l₁, ∀ b ∈ l₁, r a b → r b a → a = b) → l₁ = l₂
  | [], l₂, hp, _, _, _ => hp.nil_eq
  | a :: t, [], hp, _, _, _ => absurd hp.eq_nil (by simp)
  | a :: t, b :: u, hp, h1, h2, hanti => by
    have hab : a = b := by
      by_contra hne
      have ha : a ∈ u := by
        have : a ∈ b :: u := hp.subset (List.mem_cons_self _ _)
        rcases List.mem_cons.1 this with h | h
        · exact absurd h hne
        · exact h
      have hb : b ∈ t := by
        have : b ∈ a :: t := hp.symm.subset (List.mem_cons_self _ _)
        rcases List.mem_cons.1 this with h | h
        · exact absurd h.symm hne
        · exact h
      have rab : r a b := List.rel_of_sorted_cons h1 b hb
      have rba : r b a := List.rel_of_sorted_cons h2 a ha
      exact hne (hanti a (List.mem_cons_self _ _) b (List.mem_cons_of_mem _ hb) rab rba)
    subst hab
    have ht := sorted_perm_unique (List.Perm.cons_inv hp) h1.of_cons h2.of_cons
      (fun x hx y hy => hanti x (List.mem_cons_of_mem _ hx) y (List.mem_cons_of_mem _ hy))
    rw [ht]

theorem insertionSort_congr {α : Type} (r : α → α → Prop) [DecidableRel r] [IsTotal α r]
    [IsTrans α r] {l₁ l₂ : List α} (hp : l₁.Perm l₂)
    (hanti : ∀ a ∈ l₁, ∀ b ∈ l₁, r a b → r b a → a = b) :
    l₁.insertionSort r = l₂.insertionSort r := by
  apply sorted_perm_unique
  · exact (List.perm_insertionSort r l₁).trans (hp.trans (List.perm_insertionSort r l₂).symm)
  · exact List.sorted_insertionSort r l₁
  · exact List.sorted_insertionSort r l₂
  · intro a ha b hb
    exact hanti a ((mem_insertionSort_iff r l₁ a).1 ha) b ((mem_insertionSort_iff r l₁ b).1 hb)

theorem findHives_sameDocs {s1 s2 : Store} (hp : s1.hives.Perm s2.hives)
    (hd : DistinctDates s1.hives) (q : HiveQuery) (skip limit : JSNum) :
    s1.findHives q skip limit = s2.findHives q skip limit := by
  have hsort : ∀ p : Hive → Bool, (s1.hives.filter p).insertionSort latestFirst
      = (s2.hives.filter p).insertionSort latestFirst := by
    intro p
    apply insertionSort_congr latestFirst (hp.filter p)
    intro a ha b hb hab hba
    exact hd a (List.mem_filter.1 ha).1 b (List.mem_filter.1 hb).1 (le_antisymm hba hab)
  unfold Store.findHives
  cases q.cast <;> cases skipCount skip <;> cases limitCap limit <;> simp only [hsort]

theorem countHives_sameDocs {s1 s2 : Store} (hp : s1.hives.Perm s2.hives) (q : HiveQuery) :
    s1.countHives q = s2.countHives q := by
  unfold Store.countHives
  cases q.cast with
  | error e => rfl
  | ok p => simp only [(hp.filter p).length_eq]

theorem listHives_sameDocs (env : Env) {s1 s2 : Store} (hp : s1.hives.Perm s2.hives)
    (hd : DistinctDates s1.hives) (q : ListQuery) :
    (listHives env s1 q).response = (listHives env s2 q).response := by
  unfold listHives
  simp only [findHives_sameDocs hp hd, countHives_sameDocs hp]
  cases s2.findHives (hiveQueryOf env q)
      (((env.numberOf (pageOf q)).sub (.fin 1)).mul (env.numberOf (limitOf q)))
      (env.parseIntOf (limitOf q)) with
  | error e => rfl
  | ok l =>
    simp only
    cases s2.countHives (hiveQueryOf env q) <;> rfl

theorem findCrops_sameDocs (env : Env) {s1 s2 : Store} (hp : s1.crops.Perm s2.crops)
    (q : CropQuery)
    (hd : ∀ cs center, castCoordinates env q.coordinates = .ok cs → pointOf cs = some center →
      DistinctDistances env center s1.crops) :
    s1.findCrops env q = s2.findCrops env q := by
  unfold Store.findCrops
  cases hc : castCoordinates env q.coordinates <;> cases maxDistanceOf q.maxDistance <;>
    cases castQueryDate q.startLte <;> cases castQueryDate q.endGte <;> try rfl
  rename_i cs bound lte gte
  simp only
  cases hpt : pointOf cs with
  | none => rfl
  | some center =>
    simp only
    congr 1
    apply insertionSort_congr (nearestFirst env center) (hp.filter _)
    intro a ha b hb hab hba
    exact hd cs center hc hpt a (List.mem_filter.1 ha).1 b (List.mem_filter.1 hb).1
      (le_antisymm hab hba)

theorem nearbyQuery_clock (env : Env) (now1 now2 : Int) (q : NearbyQuery)
    (h : (JSVal.ofParam q.date).truthy = true ∨ now1 = now2) :
    nearbyQuery env now1 q = nearbyQuery env now2 q := by
  rcases h with h | h
  · simp [nearbyQuery, searchDateOf, h]
  · rw [h]

theorem queryCenter_of_cast {env : Env} {now : Int} {q : NearbyQuery} {cs : List JSNum}
    {center : ℚ × ℚ}
    (hc : castCoordinates env (nearbyQuery env now q).coordinates = .ok cs)
    (hp : pointOf cs = some center) : queryCenter env q = some center := by
  unfold queryCenter
  simp only [nearbyQuery] at hc
  cases hlo : env.parseFloatOf (JSVal.ofParam q.longitude) <;>
    cases hla : env.parseFloatOf (JSVal.ofParam q.latitude) <;>
    simp [hlo, hla, castCoordinates, castNumber] at hc <;>
    (subst hc; simp [pointOf] at hp)
  simpa using hp.2

theorem nearbyCrops_sameDocs (env : Env) (now1 now2 : Int) {s s1 s2 : Store} (q : NearbyQuery)
    (h1 : s.SameDocs s1) (h2 : s.SameDocs s2)
    (hd : ∀ center, queryCenter env q = some center → DistinctDistances env center s.crops)
    (hclock : (JSVal.ofParam q.date).truthy = true ∨ now1 = now2) :
    (nearbyCrops env now1 s1 q).response = (nearbyCrops env now2 s2 q).response := by
  have hfind : s1.findCrops env (nearbyQuery env now1 q)
      = s2.findCrops env (nearbyQuery env now2 q) := by
    rw [nearbyQuery_clock env now1 now2 q hclock]
    apply findCrops_sameDocs env (h1.2.trans h2.2.symm)
    intro cs center hc hp a ha b hb
    exact hd center (queryCenter_of_cast hc hp) a (h1.2.subset ha) b (h1.2.subset hb)
  unfold nearbyCrops
  simp only [hfind]
  split
  · rfl
  · cases s2.findCrops env (nearbyQuery env now2 q) with
    | error e => rfl
    | ok l =>
      simp only
      split <;> rfl

/-- C8 (amended). A read leaves the store as it was, and its response does not
depend on the order in which the store scans its documents, in these cases.
Two runs of list hives with identical parameters over the same stored hives
return identical responses provided no two stored hives share a `datePlaced`.
Two runs of find nearby crops with identical parameters over the same stored
crops return identical responses provided the request carries a date (or both
runs read the same clock time) and no two stored crops are equally far from the
query point. -/
theorem reads_repeatable :
    (∀ (env : Env) (s s1 s2 : Store) (q : ListQuery),
        s.SameDocs s1 → s.SameDocs s2 → DistinctDates s.hives →
          (listHives env s1 q).response = (listHives env s2 q).response
            ∧ (listHives env s1 q).store = s1)
    ∧ (∀ (env : Env) (now1 now2 : Int) (s s1 s2 : Store) (q : NearbyQuery),
        s.SameDocs s1 → s.SameDocs s2 →
        (∀ center, queryCenter env q = some center → DistinctDistances env center s.crops) →
        ((JSVal.ofParam q.date).truthy = true ∨ now1 = now2) →
          (nearbyCrops env now1 s1 q).response = (nearbyCrops env now2 s2 q).response
            ∧ (nearbyCrops env now1 s1 q).store = s1) := by
  constructor
  · intro env s s1 s2 q h1 h2 hd
    refine ⟨listHives_sameDocs env (h1.1.trans h2.1.symm) ?_ q, listHives_store env s1 q⟩
    intro a ha b hb
    exact hd a (h1.1.subset ha) b (h1.1.subset hb)
  · intro env now1 now2 s s1 s2 q h1 h2 hd hclock
    exact ⟨nearbyCrops_sameDocs env now1 now2 q h1 h2 hd hclock, nearbyCrops_store env now1 s1 q⟩

theorem distinctDistances_single (env : Env) (center : ℚ × ℚ) {crops : List Crop}
    (h : crops.length = 1) : DistinctDistances env center crops := by
  obtain ⟨x, hx⟩ := List.length_eq_one.1 h
  subst hx
  intro a ha b hb _
  rw [List.mem_singleton] at ha hb
  rw [ha, hb]

theorem sameDocs_refl (s : Store) : s.SameDocs s := ⟨List.Perm.refl _, List.Perm.refl _⟩

/-- C8 (amended), at concrete requests: page 2 of the five hives (all placed on
different days) is the same, hives `H3` and `H2`, whether the store scans them
in insertion order or in reverse; and with the date given, two runs of the
nearby search at different clock times return the same response, the stored
crop. -/
theorem reads_repeatable_witness :
    (listHives jsEnv fiveHives
        { startDate := none, endDate := none, page := some "2", limit := some "2" }).response
      = (listHives jsEnv { hives := fiveHives.hives.reverse, crops := fiveHives.crops }
          { startDate := none, endDate := none, page := some "2", limit := some "2" }).response
    ∧ (listHives jsEnv fiveHives
        { startDate := none, endDate := none, page := some "2",
          limit := some "2" }).response.data.map (fun h => h.hiveId) = ["H3", "H2"]
    ∧ (nearbyCrops jsEnv 1711929600000 oneCrop
        { latitude := some "10.0", longitude := some "20.0", radius := none,
          date := some "2024-03-15" }).response
      = (nearbyCrops jsEnv 1711929600001 oneCrop
          { latitude := some "10.0", longitude := some "20.0", radius := none,
            date := some "2024-03-15" }).response
    ∧ (nearbyCrops jsEnv 1711929600001 oneCrop
        { latitude := some "10.0", longitude := some "20.0", radius := none,
          date := some "2024-03-15" }).response = .cropList 200 none oneCrop.crops :=
  ⟨(reads_repeatable.1 jsEnv fiveHives fiveHives
      { hives := fiveHives.hives.reverse, crops := fiveHives.crops } _ (sameDocs_refl _)
      ⟨List.reverse_perm _, List.Perm.refl _⟩ (by unfold DistinctDates; decide!)).1,
    by decide!,
    (reads_repeatable.2 jsEnv 1711929600000 1711929600001 oneCrop oneCrop oneCrop _
      (sameDocs_refl _) (sameDocs_refl _)
      (fun center _ => distinctDistances_single jsEnv center (by decide!))
      (Or.inl (by decide!))).1,
    by decide!⟩

/-- C8 as stated fails. With `date` omitted the search date is the clock: the
stored crop flowers until 2024-04-01T00:00:00Z (time value 1711929600000), a run
at that instant returns it, and the same request one millisecond later, with no
write in between, returns the message with an empty list. The listing depends
on the store's order among hives placed on the same day: with two such hives
and `limit=1`, a scan in one order returns the first and a scan in the other
order returns the second. -/
theorem reads_repeatable_counterexample :
    (nearbyCrops jsEnv 1711929600000 oneCrop nearbyNow).store = oneCrop
    ∧ (nearbyCrops jsEnv 1711929600000 oneCrop nearbyNow).response
        = .cropList 200 none oneCrop.crops
    ∧ oneCrop.crops.length = 1
    ∧ (nearbyCrops jsEnv 1711929600001
        (nearbyCrops jsEnv 1711929600000 oneCrop nearbyNow).store nearbyNow).response
        = .cropList 200 (some "No flowering crops found nearby.") []
    ∧ (nearbyCrops jsEnv 1711929600001
        (nearbyCrops jsEnv 1711929600000 oneCrop nearbyNow).store nearbyNow).response
        ≠ (nearbyCrops jsEnv 1711929600000 oneCrop nearbyNow).response
    ∧ (twinHives "A" "B").SameDocs (twinHives "B" "A")
    ∧ (listHives jsEnv (twinHives "A" "B")
        { startDate := none, endDate := none, page := none, limit := some "1" }).response
        ≠ (listHives jsEnv (twinHives "B" "A")
            { startDate := none, endDate := none, page := none, limit := some "1" }).response := by
  refine ⟨by decide!, by decide!, by decide!, by decide!, by decide!, ?_, by decide!⟩
  have h : (twinHives "B" "A").hives = (twinHives "A" "B").hives.reverse := by decide!
  have hc : (twinHives "B" "A").crops = (twinHives "A" "B").crops := by decide!
  exact ⟨by rw [h]; exact List.reverse_perm _, by rw [hc]⟩

/-! ## Invalid create-crop requests (C9) -/

theorem validateCrop_complete {env : Env} {now : Int} {b : CropBody} {c : Crop}
    (hv : validateCrop env now (cropDocOf b) = .ok c) : ¬ MissingOrLowDensity env b := by
  obtain ⟨hn, hfs, hfe, hla, hlo, _, _, hdn⟩ := validateCrop_ok hv
  have h1 := (requiredName_ok hn).1
  have h2 := (castDate_ok (required_ok hfs)).2
  have h3 := (castDate_ok (required_ok hfe)).2
  obtain ⟨sla, h4, _⟩ := castNumber_ofParam_ok (required_ok hla)
  obtain ⟨slo, h5, _⟩ := castNumber_ofParam_ok (required_ok hlo)
  obtain ⟨hreq, hge⟩ := minOne_ok hdn
  obtain ⟨sd, h6, _, h7, _⟩ := castNumber_ofParam_ok (required_ok hreq)
  simp only [cropDocOf] at h1 h2 h3 h4 h5 h6
  rintro (h | h | h | h | h | h | ⟨d, hd, hlow⟩)
  · rw [h] at h1; cases h1
  · exact h2 h
  · exact h3 h
  · rw [h] at h4; cases h4
  · rw [h] at h5; cases h5
  · rw [h] at h6; cases h6
  · rw [hd] at h6
    injection h6 with h6
    subst h6
    rcases hlow with ⟨x, hx, hlt⟩ | hneg
    · rw [hx] at h7
      rw [← h7] at hge
      simp only [JSNum.ge, JSNum.le, decide_eq_true_eq] at hge
      linarith
    · rw [hneg] at h7
      rw [← h7] at hge
      simp [JSNum.ge, JSNum.le] at hge

/-- C9 (amended). A create-crop request that misses a required field (`name`,
`floweringStart`, `floweringEnd`, `latitude`, `longitude`,
`recommendedHiveDensity`) or whose `recommendedHiveDensity` is below 1 creates
no record. It is answered 409 with message 'Overlapping crop exists in the same
area' when the overlap pre-check finds a stored crop, and otherwise 400 with the
error text of the store (of the failed pre-check query or of the failed
`save`). -/
theorem createCrop_invalid_rejected (env : Env) (now : Int) (s : Store) (b : CropBody)
    (h : MissingOrLowDensity env b) :
    (createCrop env now s b).store = s
      ∧ (((∃ c ∈ s.crops, OverlapsRequest env b c)
            ∧ (createCrop env now s b).response
              = .message 409 "Overlapping crop exists in the same area")
          ∨ ((¬ ∃ c ∈ s.crops, OverlapsRequest env b c)
            ∧ ∃ msg, (createCrop env now s b).response = .error 400 msg
              ∧ (s.findCrops env (overlapQuery env b) = .error msg
                  ∨ saveCrop env now s (cropDocOf b) = .error msg))) := by
  rw [overlap_found]
  rcases createCrop_cases env now s b with ⟨msg, hf, hc⟩ | ⟨l, hf, hne, hc⟩ | ⟨msg, hf, hs, hc⟩
    | ⟨c, _, hv, _⟩
  · rw [hc]
    refine ⟨rfl, Or.inr ⟨?_, msg, rfl, Or.inl hf⟩⟩
    rw [hf]
    simp
  · rw [hc]
    exact ⟨rfl, Or.inl ⟨⟨l, hf, hne⟩, rfl⟩⟩
  · rw [hc]
    refine ⟨rfl, Or.inr ⟨?_, msg, rfl, Or.inr hs⟩⟩
    rw [hf]
    simp
  · exact absurd h (validateCrop_complete hv)

/-- C9 (amended), at concrete requests: with no overlapping crop stored, a
density of 0.5 and a missing density are both answered 400 and the store is
unchanged. -/
theorem createCrop_invalid_rejected_witness :
    createCrop jsEnv 1 oneCrop (cropAt "Clover" "2024-05-01" "2024-06-01" (some "0.5"))
      = { response := .error 400 ("Crop validation failed: Path recommendedHiveDensity is "
            ++ "less than minimum allowed value (1)."),
          store := oneCrop, ops := [.cropFind, .cropSave] }
    ∧ (createCrop jsEnv 1 oneCrop (cropAt "Clover" "2024-05-01" "2024-06-01" none)).response
      = .error 400 "Crop validation failed: Path recommendedHiveDensity is required."
    ∧ (createCrop jsEnv 1 oneCrop (cropAt "Clover" "2024-05-01" "2024-06-01" none)).store
      = oneCrop :=
  ⟨by decide!, by decide!,
    (createCrop_invalid_rejected jsEnv 1 oneCrop (cropAt "Clover" "2024-05-01" "2024-06-01" none)
      (Or.inr (Or.inr (Or.inr (Or.inr (Or.inr (Or.inl rfl))))))).1⟩

/-- C9 as stated fails. With a Clover crop flowering from 2024-03-01 to
2024-04-01 stored at the same point, a Clover request for 2024-03-15 to
2024-03-20 that omits `recommendedHiveDensity` is answered 409 by the overlap
pre-check, which runs before validation, and not 400. -/
theorem createCrop_invalid_rejected_counterexample :
    (cropAt "Clover" "2024-03-15" "2024-03-20" none).recommendedHiveDensity = none
    ∧ MissingOrLowDensity jsEnv (cropAt "Clover" "2024-03-15" "2024-03-20" none)
    ∧ createCrop jsEnv 1 oneCrop (cropAt "Clover" "2024-03-15" "2024-03-20" none)
      = { response := .message 409 "Overlapping crop exists in the same area",
          store := oneCrop, ops := [.cropFind] }
    ∧ (createCrop jsEnv 1 oneCrop
        (cropAt "Clover" "2024-03-15" "2024-03-20" none)).response.status ≠ 400 := by
  refine ⟨rfl, Or.inr (Or.inr (Or.inr (Or.inr (Or.inr (Or.inl rfl))))), by decide!, by decide!⟩


end Beehive
